import Mathlib

/-!
Verification of the `dataiku_mcp` tool layer.

This file is a shallow embedding of the repository
`swyfft-insurance/dataiku_factory` (a set of MCP tool functions wrapping the
Dataiku DSS REST client) into Lean 4, together with theorems settling the
frozen claims about its specification.

Modelling conventions:
* Python values that flow through untyped dictionaries are modelled by the
  inductive type `PyVal`; Python `dict` is an association list
  `List (String × PyVal)` with first-match lookup.
* Calls into the vendor SDK (`dataikuapi`) are modelled by oracle records:
  one field per SDK method, each returning `Except String τ` (`.error e`
  models a raised exception with message `e`).  A tool body that lets an
  exception escape to its top-level `try/except` is modelled by an explicit
  match that turns `.error e` into the uniform error envelope, exactly where
  the Python code does.
* Tools whose behaviour the claims tie to the order of SDK calls
  (`build_dataset`, `run_recipe`, `create_dataset`) additionally return the
  trace of attempted vendor-client calls as a `List Call`.
* Python integers are `Int`; list indexing (`xs[i]`, `del xs[i]`) follows
  Python semantics including negative indices and `IndexError`.
-/

/-- Python-style dynamic value: the subset of JSON-ish values the tools
manipulate. -/
inductive PyVal where
  | str (s : String)
  | int (n : Int)
  | bool (b : Bool)
  | list (xs : List PyVal)
  | dict (kvs : List (String × PyVal))
  | none

/-- First-match lookup in a Python dict modelled as an association list. -/
def pyLookup (kvs : List (String × PyVal)) (k : String) : Option PyVal :=
  match kvs with
  | [] => Option.none
  | (k2, v) :: rest => if k2 = k then some v else pyLookup rest k

/-- Python `d.get(k, dflt)`; raises `AttributeError` when the receiver is not
a dict, as Python would. -/
def pyGetD (v : PyVal) (k : String) (dflt : PyVal) : Except String PyVal :=
  match v with
  | .dict kvs =>
      match pyLookup kvs k with
      | some x => .ok x
      | Option.none => .ok dflt
  | _ => .error "AttributeError"

/-- Python `d[k]` on a dict value (`KeyError` when absent, `TypeError` when
the receiver is not a dict). -/
def pyGetE (v : PyVal) (k : String) : Except String PyVal :=
  match v with
  | .dict kvs =>
      match pyLookup kvs k with
      | some x => .ok x
      | Option.none => .error "KeyError"
  | _ => .error "TypeError"

/-- Set one key of an association-list dict (replace in place, else append),
matching CPython insertion-order semantics. -/
def pySetKvs (kvs : List (String × PyVal)) (k : String) (x : PyVal) :
    List (String × PyVal) :=
  match kvs with
  | [] => [(k, x)]
  | (k2, v) :: rest =>
      if k2 = k then (k2, x) :: rest else (k2, v) :: pySetKvs rest k x

/-- Python `d[k] = x` (`AttributeError` when the receiver is not a dict). -/
def pySetE (v : PyVal) (k : String) (x : PyVal) : Except String PyVal :=
  match v with
  | .dict kvs => .ok (.dict (pySetKvs kvs k x))
  | _ => .error "AttributeError"

/-- Python `d.update(changes)` on a dict value. -/
def pyUpdate (v : PyVal) (changes : List (String × PyVal)) :
    Except String PyVal :=
  match v with
  | .dict kvs =>
      .ok (.dict (changes.foldl (fun acc p => pySetKvs acc p.1 p.2) kvs))
  | _ => .error "AttributeError"

/-- Python truthiness for the values our tools test. -/
def pyTruthy : PyVal → Bool
  | .str s => s ≠ ""
  | .int n => n ≠ 0
  | .bool b => b
  | .list xs => !xs.isEmpty
  | .dict kvs => !kvs.isEmpty
  | .none => false

/-- Truthiness of an optional string (`None` and `""` are falsy). -/
def pyTruthyStr : Option String → Bool
  | Option.none => false
  | some s => s ≠ ""

/-- Prefix test on character lists. -/
def isPrefixChars : List Char → List Char → Bool
  | [], _ => true
  | _ :: _, [] => false
  | a :: as, b :: bs => a = b && isPrefixChars as bs

/-- Substring search on character lists (the empty needle matches). -/
def containsChars (nd : List Char) : List Char → Bool
  | [] => nd.isEmpty
  | b :: bs => isPrefixChars nd (b :: bs) || containsChars nd bs

/-- Python `needle in hay` on strings (substring containment). -/
def pyIn (needle hay : String) : Bool :=
  containsChars needle.data hay.data

/-- Python `s.lower()` (ASCII case folding, spelled so that it reduces in
the kernel). -/
def pyLower (s : String) : String :=
  ⟨s.data.map Char.toLower⟩

/-- `concatMap` spelled out, used to characterise accumulate-and-continue
loops. -/
def concatMap (f : α → List β) : List α → List β
  | [] => []
  | x :: rest => f x ++ concatMap f rest

/-! ## `advanced_scenarios.clone_scenario`: trigger removal

The source sorts the requested indices in descending order and deletes each
index that is still in range:

    indices = sorted(modifications["remove_triggers"], reverse=True)
    for trigger_index in indices:
        if trigger_index < len(new_settings.raw_triggers):
            del new_settings.raw_triggers[trigger_index]
-/

/-- Python `sorted(l, reverse=True)` for a list of ints. -/
def sortDesc (l : List Int) : List Int :=
  List.insertionSort (fun a b => a ≥ b) l

/-- Python `del xs[i]`, including negative-index semantics and
`IndexError`. -/
def pyDelIdx (xs : List α) (i : Int) : Except String (List α) :=
  if 0 ≤ i then
    if i.toNat < xs.length then .ok (xs.eraseIdx i.toNat)
    else .error "IndexError"
  else
    if (-i).toNat ≤ xs.length then .ok (xs.eraseIdx (xs.length - (-i).toNat))
    else .error "IndexError"

/-- The deletion loop of `clone_scenario`, over an already-sorted index
list. -/
def removeLoop : List Int → List α → Except String (List α)
  | [], xs => .ok xs
  | i :: rest, xs =>
      if i < (xs.length : Int) then
        match pyDelIdx xs i with
        | .ok xs2 => removeLoop rest xs2
        | .error e => .error e
      else removeLoop rest xs

/-- The full `remove_triggers` treatment: sort descending, then delete. -/
def removeTriggers (is : List Int) (xs : List α) : Except String (List α) :=
  removeLoop (sortDesc is) xs

/-- Helper: keep exactly the elements whose absolute index (offset `k`) is
not in `is`. -/
def keepAux (is : List Int) : Nat → List α → List α
  | _, [] => []
  | k, x :: xs =>
      if (k : Int) ∈ is then keepAux is (k + 1) xs
      else x :: keepAux is (k + 1) xs

/-- Modelled from the spec: the surviving triggers are exactly those whose
original indices are not in the removal list. -/
def specSurvivingTriggers (is : List Int) (xs : List α) : List α :=
  (xs.enum.filter (fun p => !(decide ((p.1 : Int) ∈ is)))).map Prod.snd

theorem keepAux_nil (xs : List α) (k : Nat) :
    keepAux ([] : List Int) k xs = xs := by
  induction xs generalizing k with
  | nil => rfl
  | cons x rest ih => simp [keepAux, ih]

theorem keepAux_congr (is is2 : List Int) (xs : List α) (k : Nat)
    (h : ∀ m : Nat, k ≤ m → m < k + xs.length →
      (((m : Int) ∈ is) ↔ ((m : Int) ∈ is2))) :
    keepAux is k xs = keepAux is2 k xs := by
  induction xs generalizing k with
  | nil => rfl
  | cons x rest ih =>
      have hk : ((k : Int) ∈ is) ↔ ((k : Int) ∈ is2) := by
        exact h k (Nat.le_refl k) (by simp [List.length_cons])
      have ih2 := ih (k + 1) (by
        intro m h1 h2
        exact h m (by omega) (by simp [List.length_cons] at *; omega))
      by_cases hmem : (k : Int) ∈ is
      · simp [keepAux, hmem, hk.mp hmem, ih2]
      · have hmem2 : ¬ ((k : Int) ∈ is2) := fun hc => hmem (hk.mpr hc)
        simp [keepAux, hmem, hmem2, ih2]

theorem keepAux_all_lt (is : List Int) :
    ∀ (k : Nat) (xs : List α), (∀ j ∈ is, j < (k : Int)) →
    keepAux is k xs = xs := by
  intro k xs
  induction xs generalizing k with
  | nil => intro _; rfl
  | cons x rest ih =>
      intro h
      have hk : ¬ ((k : Int) ∈ is) := by
        intro hc
        have := h _ hc
        omega
      have ih2 := ih (k + 1) (by
        intro j hj
        have := h j hj
        omega)
      simp [keepAux, hk, ih2]

theorem keepAux_eraseIdx (rest : List Int) (i : Nat) :
    ∀ (k : Nat) (xs : List α), i < xs.length →
    (∀ j ∈ rest, j < ((k + i : Nat) : Int)) →
    keepAux rest k (xs.eraseIdx i) =
      keepAux (((k + i : Nat) : Int) :: rest) k xs := by
  induction i with
  | zero =>
      intro k xs hlen hrest
      match xs with
      | x :: xs2 =>
        have hin : ((k + 0 : Nat) : Int) ∈ (((k + 0 : Nat) : Int) :: rest) :=
          List.mem_cons_self _ _
        have hstep : keepAux (((k + 0 : Nat) : Int) :: rest) k (x :: xs2) =
            keepAux (((k + 0 : Nat) : Int) :: rest) (k + 1) xs2 := by
          simp [keepAux]
        rw [List.eraseIdx, hstep]
        rw [keepAux_all_lt rest k xs2 (by
          intro j hj
          have := hrest j hj
          simpa using this)]
        rw [keepAux_all_lt (((k + 0 : Nat) : Int) :: rest) (k + 1) xs2 (by
          intro j hj
          rcases List.mem_cons.mp hj with h3 | h3
          · rw [h3]; push_cast; omega
          · have := hrest j h3
            push_cast at this ⊢
            omega)]
  | succ i ih =>
      intro k xs hlen hrest
      match xs with
      | x :: xs2 =>
        have hlen2 : i < xs2.length := by
          simp [List.length_cons] at hlen; omega
        have hrest2 : ∀ j ∈ rest, j < (((k + 1) + i : Nat) : Int) := by
          intro j hj
          have := hrest j hj
          have heq : ((k + (i + 1) : Nat) : Int) = (((k + 1) + i : Nat) : Int) := by
            push_cast; ring
          rw [← heq]; exact this
        have ihx := ih (k + 1) xs2 hlen2 hrest2
        have hne : ¬ (((k : Nat) : Int) = ((k + (i + 1) : Nat) : Int)) := by
          intro hc
          have : (k : Nat) = k + (i + 1) := by exact_mod_cast hc
          omega
        have heq2 : (((k + 1) + i : Nat) : Int) = ((k + (i + 1) : Nat) : Int) := by
          push_cast; ring
        by_cases hmem : ((k : Nat) : Int) ∈ rest
        · have hmem2 : ((k : Nat) : Int) ∈ (((k + (i + 1) : Nat) : Int) :: rest) :=
            List.mem_cons_of_mem _ hmem
          rw [List.eraseIdx]
          simp only [keepAux, if_pos hmem, if_pos hmem2]
          rw [ihx, heq2]
        · have hmem2 : ¬ (((k : Nat) : Int) ∈ (((k + (i + 1) : Nat) : Int) :: rest)) := by
            intro hc
            rcases List.mem_cons.mp hc with h3 | h3
            · exact hne h3
            · exact hmem h3
          rw [List.eraseIdx]
          simp only [keepAux, if_neg hmem, if_neg hmem2]
          rw [ihx, heq2]

theorem removeLoop_sorted (is : List Int) :
    ∀ (xs : List α), List.Pairwise (fun a b => a > b) is →
    (∀ i ∈ is, 0 ≤ i) →
    removeLoop is xs = .ok (keepAux is 0 xs) := by
  induction is with
  | nil => intro xs _ _; simp [removeLoop, keepAux_nil]
  | cons i rest ih =>
      intro xs hpair hpos
      have hrest_lt : ∀ j ∈ rest, j < i := by
        intro j hj; exact (List.pairwise_cons.mp hpair).1 j hj
      have hpair2 := (List.pairwise_cons.mp hpair).2
      have hpos_i : 0 ≤ i := hpos i (List.mem_cons_self _ _)
      have hpos2 : ∀ j ∈ rest, 0 ≤ j := fun j hj =>
        hpos j (List.mem_cons_of_mem _ hj)
      by_cases hlt : i < (xs.length : Int)
      · have htn : i.toNat < xs.length := by omega
        have hdel : pyDelIdx xs i = .ok (xs.eraseIdx i.toNat) := by
          simp [pyDelIdx, hpos_i, htn]
        simp only [removeLoop, if_pos hlt, hdel]
        rw [ih (xs.eraseIdx i.toNat) hpair2 hpos2]
        have hcast : ((0 + i.toNat : Nat) : Int) = i := by
          simp [Int.toNat_of_nonneg hpos_i]
        have := keepAux_eraseIdx rest i.toNat 0 xs htn (by
          intro j hj; rw [hcast]; exact hrest_lt j hj)
        rw [this, hcast]
      · simp only [removeLoop, if_neg hlt]
        rw [ih xs hpair2 hpos2]
        congr 1
        apply keepAux_congr
        intro m h1 h2
        constructor
        · intro hm; exact List.mem_cons_of_mem _ hm
        · intro hm
          rcases List.mem_cons.mp hm with h3 | h3
          · exfalso
            have hmi : (m : Int) = i := h3
            have : (xs.length : Int) ≤ i := by omega
            omega
          · exact h3

theorem sortDesc_pairwise (is : List Int) (h : is.Nodup) :
    List.Pairwise (fun a b => a > b) (sortDesc is) := by
  have hs : List.Sorted (fun a b : Int => a ≥ b) (sortDesc is) :=
    List.sorted_insertionSort _ is
  have hperm : List.Perm (sortDesc is) is := List.perm_insertionSort _ is
  have hnd : (sortDesc is).Nodup := (hperm.nodup_iff).mpr h
  have := List.Pairwise.and hs hnd
  exact this.imp (fun hab => lt_of_le_of_ne hab.1 (Ne.symm hab.2))

theorem sortDesc_mem (is : List Int) (a : Int) : a ∈ sortDesc is ↔ a ∈ is :=
  (List.perm_insertionSort _ is).mem_iff

theorem keepAux_enumFrom (is : List Int) :
    ∀ (k : Nat) (xs : List α),
    keepAux is k xs =
      ((List.enumFrom k xs).filter
        (fun p => !(decide ((p.1 : Int) ∈ is)))).map Prod.snd := by
  intro k xs
  induction xs generalizing k with
  | nil => rfl
  | cons x rest ih =>
      by_cases hmem : ((k : Nat) : Int) ∈ is
      · simp [keepAux, hmem, List.enumFrom, List.filter, ih (k + 1)]
      · simp [keepAux, hmem, List.enumFrom, List.filter, ih (k + 1)]

theorem removeTriggers_spec (is : List Int) (xs : List α)
    (h1 : is.Nodup) (h2 : ∀ i ∈ is, 0 ≤ i) :
    removeTriggers is xs = .ok (specSurvivingTriggers is xs) := by
  have hps := sortDesc_pairwise is h1
  have hpos : ∀ i ∈ sortDesc is, 0 ≤ i := by
    intro i hi; exact h2 i ((sortDesc_mem is i).mp hi)
  rw [removeTriggers, removeLoop_sorted (sortDesc is) xs hps hpos]
  congr 1
  rw [keepAux_congr (sortDesc is) is xs 0
    (fun m _ _ => sortDesc_mem is (m : Int))]
  rw [keepAux_enumFrom]
  rfl

/-! ## `advanced_scenarios.clone_scenario`: full tool -/

/-- Python list read `xs[i]` with negative-index semantics. -/
def pyListGet (xs : List α) (i : Int) : Except String α :=
  if 0 ≤ i then
    match xs.get? i.toNat with
    | some x => .ok x
    | Option.none => .error "IndexError"
  else
    if (-i).toNat ≤ xs.length then
      match xs.get? (xs.length - (-i).toNat) with
      | some x => .ok x
      | Option.none => .error "IndexError"
    else .error "IndexError"

/-- Python list element assignment `xs[i] = x` with negative-index
semantics. -/
def pyListSet (xs : List α) (i : Int) (x : α) : Except String (List α) :=
  if 0 ≤ i then
    if i.toNat < xs.length then .ok (xs.set i.toNat x)
    else .error "IndexError"
  else
    if (-i).toNat ≤ xs.length then .ok (xs.set (xs.length - (-i).toNat) x)
    else .error "IndexError"

/-- Python `v in d` membership test on a dict value. -/
def pyContains (v : PyVal) (k : String) : Except String Bool :=
  match v with
  | .dict kvs => .ok ((pyLookup kvs k).isSome)
  | _ => .error "TypeError"

/-- Python `v == "s"` for an arbitrary value against a string literal. -/
def pyEqStr (v : PyVal) (s : String) : Bool :=
  match v with
  | .str t => t = s
  | _ => false

/-- The entries of one `step_changes` dict in
`modifications["step_modifications"]`. -/
structure StepChanges where
  params : Option (List (String × PyVal))
  code : Option String
  name : Option String
  enabled : Option PyVal

/-- The `modifications` argument of `clone_scenario`. -/
structure Modifications where
  description : Option String
  tags : Option PyVal
  active : Option PyVal
  step_modifications : Option (List (Int × StepChanges))
  trigger_modifications : Option (List (Int × List (String × PyVal)))
  new_triggers : Option (List PyVal)
  remove_triggers : Option (List Int)

/-- Scenario settings as used by `clone_scenario`
(`name`/`type`/`active`/`raw_steps`/`raw_triggers`). -/
structure ScenarioSettings where
  name : String
  stype : String
  active : PyVal
  raw_steps : List PyVal
  raw_triggers : List PyVal

/-- One iteration of the `step_modifications` loop body of
`clone_scenario`. -/
def applyOneStepMod (step : PyVal) (ch : StepChanges) : Except String PyVal := do
  let step ← match ch.params with
    | some ps => do
        let cur ← pyGetE step "params"
        let upd ← pyUpdate cur ps
        pySetE step "params" upd
    | Option.none => pure step
  let tval ← pyGetD step "type" PyVal.none
  let isPython := pyEqStr tval "custom_python"
  let step ← match ch.code with
    | some c =>
        if isPython then do
          let hasP ← pyContains step "params"
          let step ← if hasP then pure step else pySetE step "params" (.dict [])
          let cur ← pyGetE step "params"
          let upd ← pySetE cur "script" (.str c)
          pySetE step "params" upd
        else pure step
    | Option.none => pure step
  let step ← match ch.name with
    | some n => pySetE step "name" (.str n)
    | Option.none => pure step
  match ch.enabled with
  | some e => pySetE step "enabled" e
  | Option.none => pure step

/-- The `step_modifications` loop of `clone_scenario` (indices past the end
are skipped). -/
def applyStepMods : List (Int × StepChanges) → List PyVal →
    Except String (List PyVal)
  | [], steps => .ok steps
  | (idx, ch) :: rest, steps =>
      if idx < (steps.length : Int) then do
        let step ← pyListGet steps idx
        let step2 ← applyOneStepMod step ch
        let steps2 ← pyListSet steps idx step2
        applyStepMods rest steps2
      else applyStepMods rest steps

/-- The `trigger_modifications` loop of `clone_scenario`
(`trigger.update(trigger_changes)` at each in-range index). -/
def applyTriggerMods : List (Int × List (String × PyVal)) → List PyVal →
    Except String (List PyVal)
  | [], ts => .ok ts
  | (idx, ch) :: rest, ts =>
      if idx < (ts.length : Int) then do
        let tr ← pyListGet ts idx
        let tr2 ← pyUpdate tr ch
        let ts2 ← pyListSet ts idx tr2
        applyTriggerMods rest ts2
      else applyTriggerMods rest ts

/-- The settings-level modification block of `clone_scenario`: `active`,
`step_modifications`, `trigger_modifications`, `new_triggers`,
`remove_triggers`, in source order. -/
def applySettingsMods (mods : Modifications) (s : ScenarioSettings) :
    Except String ScenarioSettings := do
  let s := match mods.active with
    | some a => { s with active := a }
    | Option.none => s
  let s ← match mods.step_modifications with
    | some sm => do
        let st ← applyStepMods sm s.raw_steps
        pure { s with raw_steps := st }
    | Option.none => pure s
  let s ← match mods.trigger_modifications with
    | some tm => do
        let ts ← applyTriggerMods tm s.raw_triggers
        pure { s with raw_triggers := ts }
    | Option.none => pure s
  let s := match mods.new_triggers with
    | some ts => { s with raw_triggers := s.raw_triggers ++ ts }
    | Option.none => s
  match mods.remove_triggers with
  | some is => do
      let ts ← removeTriggers is s.raw_triggers
      pure { s with raw_triggers := ts }
  | Option.none => pure s

/-- The keys present in a `modifications` dict (for
`modifications_applied`). -/
def modsKeys (m : Modifications) : List String :=
  (if m.description.isSome then ["description"] else []) ++
  (if m.tags.isSome then ["tags"] else []) ++
  (if m.active.isSome then ["active"] else []) ++
  (if m.step_modifications.isSome then ["step_modifications"] else []) ++
  (if m.trigger_modifications.isSome then ["trigger_modifications"] else []) ++
  (if m.new_triggers.isSome then ["new_triggers"] else []) ++
  (if m.remove_triggers.isSome then ["remove_triggers"] else [])

/-- Vendor-client calls made by `clone_scenario`. -/
structure CloneOracle where
  getProject : Except String Unit
  getScenario : Except String Unit
  getSettings : Except String ScenarioSettings
  getMetadata : Except String (List (String × PyVal))
  createScenario : Except String Unit
  newScenarioId : String
  newGetSettings : Except String ScenarioSettings
  newGetMetadata : Except String (List (String × PyVal))
  newSetMetadata : List (String × PyVal) → Except String Unit
  saveSettings : ScenarioSettings → Except String Unit

/-- The `scenario_info` block of a successful `clone_scenario` result. -/
structure CloneScenarioInfo where
  id : String
  name : String
  stype : String
  active : PyVal
  step_count : Nat
  trigger_count : Nat

/-- Return dictionary of `clone_scenario`. -/
structure CloneResult where
  status : String
  message : Option String
  source_scenario_id : Option String
  new_scenario_id : Option String
  new_scenario_name : Option String
  scenario_info : Option CloneScenarioInfo
  modifications_applied : Option (List String)

/-- The `try` body of `clone_scenario`. -/
def cloneBody (o : CloneOracle) (source_scenario_id new_scenario_name : String)
    (modifications : Option Modifications) : Except String CloneResult := do
  let _ ← o.getProject
  let _ ← o.getScenario
  let source_settings ← o.getSettings
  let _ ← o.getMetadata
  let _ ← o.createScenario
  let new_settings0 ← o.newGetSettings
  let new_settings :=
    { new_settings0 with
        name := new_scenario_name
        active := source_settings.active
        raw_steps := source_settings.raw_steps
        raw_triggers := source_settings.raw_triggers }
  let new_settings ← match modifications with
    | some mods => do
        let pushed ← match mods.description with
          | some d => do
              let m ← o.newGetMetadata
              let m2 := pySetKvs m "description" (.str d)
              let _ ← o.newSetMetadata m2
              pure (some m2)
          | Option.none => pure ((Option.none : Option (List (String × PyVal))))
        match mods.tags with
          | some t => do
              let m ← match pushed with
                | some m => pure m
                | Option.none => o.newGetMetadata
              let m2 := pySetKvs m "tags" t
              let _ ← o.newSetMetadata m2
          | Option.none => pure ()
        applySettingsMods mods new_settings
    | Option.none => pure new_settings
  let _ ← o.saveSettings new_settings
  pure
    { status := "ok"
      message := Option.none
      source_scenario_id := some source_scenario_id
      new_scenario_id := some o.newScenarioId
      new_scenario_name := some new_scenario_name
      scenario_info := some
        { id := o.newScenarioId
          name := new_scenario_name
          stype := source_settings.stype
          active := new_settings.active
          step_count := new_settings.raw_steps.length
          trigger_count := new_settings.raw_triggers.length }
      modifications_applied := some (match modifications with
        | some m => modsKeys m
        | Option.none => []) }

/-- `clone_scenario`: the body wrapped in the top-level `except`. -/
def clone_scenario (o : CloneOracle)
    (project_key source_scenario_id new_scenario_name : String)
    (modifications : Option Modifications) : CloneResult :=
  match cloneBody o source_scenario_id new_scenario_name modifications with
  | .ok r => r
  | .error e =>
      { status := "error"
        message := some ("Failed to clone scenario: " ++ e)
        source_scenario_id := Option.none
        new_scenario_id := Option.none
        new_scenario_name := Option.none
        scenario_info := Option.none
        modifications_applied := Option.none }

/-! ## `client.py`: the lazy process-wide client singleton -/

/-- The module-level state of `client.py`: the cached `_CLIENT_INSTANCE`
plus a ghost counter of `_create_client` invocations.  Clients are
identified by `Nat`. -/
structure ClientState where
  clientInstance : Option Nat
  createCalls : Nat
deriving DecidableEq

/-- `get_client`: return the cached instance, otherwise invoke
`_create_client` (modelled by `create`, fed the current invocation count)
and cache the result.  A failure of `_create_client` propagates and leaves
the cache empty. -/
def get_client (create : Nat → Except String Nat) (s : ClientState) :
    Except String Nat × ClientState :=
  match s.clientInstance with
  | some c => (.ok c, s)
  | Option.none =>
      match create s.createCalls with
      | .ok c =>
          (.ok c, { clientInstance := some c, createCalls := s.createCalls + 1 })
      | .error e =>
          (.error e,
           { clientInstance := Option.none, createCalls := s.createCalls + 1 })

/-- `reset_client`: drop the cached instance. -/
def reset_client (s : ClientState) : ClientState :=
  { s with clientInstance := Option.none }

/-! ## Traced tools: `build_dataset`, `run_recipe`, `create_dataset`

These three tools return, besides the result dictionary, the list of
vendor-client calls they attempted, in order. -/

/-- The `build_params` dict assembled by `build_dataset`. -/
structure BuildParams where
  wait : Bool
  no_fail : Bool
  job_type : Option String
  partitions : Option String
deriving DecidableEq

/-- Vendor-client calls recorded in traces. -/
inductive Call where
  | getProject (key : String)
  | getDataset (name : String)
  | datasetBuild (name : String) (params : BuildParams)
  | jobWaitForCompletion (jobId : String)
  | getRecipe (name : String)
  | recipeRun (name : String) (jobType : Option String)
  | newManagedDataset (name : String)
  | withStoreInto (conn : String)
  | withFormat (fmt : String)
  | builderCreate
  | createFilesystemDataset (name conn path : String)
  | createSqlTableDataset (name conn table : String)
  | createS3Dataset (name conn path : String)
  | createUploadDataset (name : String)
  | createDatasetGeneric (name dtype : String)
  | dsGetSettings
  | setFormatType (fmt : String)
  | setFormatParams
  | settingsSave
deriving DecidableEq

/-- Whether a call submits work (a dataset build or recipe run) to the
platform. -/
def Call.isJobSubmission : Call → Bool
  | .datasetBuild _ _ => true
  | .recipeRun _ _ => true
  | _ => false

/-- Outcome record of `job.wait_for_completion()`. -/
structure JobOutcome where
  outcome : String
  start_time : String
  end_time : String
deriving DecidableEq

/-- Oracle for `build_dataset`. -/
structure BuildOracle where
  getProject : Except String Unit
  getDataset : Except String Unit
  build : Except String String
  waitForCompletion : Except String JobOutcome

/-- Return dictionary of `build_dataset`. -/
structure BuildResult where
  status : String
  message : String
  dataset_name : Option String
  job_id : Option String
  job_status : Option String
  job_start_time : Option String
  job_end_time : Option String
  build_mode : Option String
  partition : Option String
deriving DecidableEq

/-- The valid build modes shared by `build_dataset` and `run_recipe`. -/
def validModes : List String :=
  ["RECURSIVE_BUILD", "NON_RECURSIVE_FORCED_BUILD", "RECURSIVE_FORCED_BUILD"]

/-- The Python repr of `valid_modes`, as interpolated into the two
invalid-mode messages. -/
def validModesRepr : String :=
  "[\x27RECURSIVE_BUILD\x27, \x27NON_RECURSIVE_FORCED_BUILD\x27," ++
  " \x27RECURSIVE_FORCED_BUILD\x27]"

/-- The top-level `except` envelope of `build_dataset`. -/
def buildFail (dataset_name e : String) : BuildResult :=
  { status := "error"
    message := "Failed to build dataset \x27" ++ dataset_name ++ "\x27: " ++ e
    dataset_name := Option.none
    job_id := Option.none
    job_status := Option.none
    job_start_time := Option.none
    job_end_time := Option.none
    build_mode := Option.none
    partition := Option.none }

/-- The early-return dictionary for an unrecognized build mode. -/
def invalidBuildModeResult : BuildResult :=
  { buildFail "" "" with
    message := "Invalid build mode. Must be one of: " ++ validModesRepr }

/-- `datasets.build_dataset`, with its trace of attempted client calls. -/
def build_dataset (o : BuildOracle) (project_key dataset_name : String)
    (mode partition : Option String) : BuildResult × List Call :=
  let t1 := [Call.getProject project_key]
  match o.getProject with
  | .error e => (buildFail dataset_name e, t1)
  | .ok _ =>
    let t2 := t1 ++ [Call.getDataset dataset_name]
    match o.getDataset with
    | .error e => (buildFail dataset_name e, t2)
    | .ok _ =>
      if pyTruthyStr mode && !(validModes.contains (mode.getD "")) then
        (invalidBuildModeResult, t2)
      else
        let bp : BuildParams :=
          { wait := true
            no_fail := false
            job_type := if pyTruthyStr mode then mode else Option.none
            partitions := if pyTruthyStr partition then partition
              else Option.none }
        let t3 := t2 ++ [Call.datasetBuild dataset_name bp]
        match o.build with
        | .error e => (buildFail dataset_name e, t3)
        | .ok jobId =>
          let t4 := t3 ++ [Call.jobWaitForCompletion jobId]
          match o.waitForCompletion with
          | .error e => (buildFail dataset_name e, t4)
          | .ok jr =>
            ({ status := "ok"
               message :=
                 "Dataset \x27" ++ dataset_name ++ "\x27 built successfully"
               dataset_name := some dataset_name
               job_id := some jobId
               job_status := some jr.outcome
               job_start_time := some jr.start_time
               job_end_time := some jr.end_time
               build_mode := mode
               partition := partition }, t4)

/-- Oracle for `run_recipe`. -/
structure RunOracle where
  getProject : Except String Unit
  getRecipe : Except String Unit
  run : Except String String
  waitForCompletion : Except String JobOutcome

/-- Return dictionary of `run_recipe`. -/
structure RunResult where
  status : String
  message : String
  recipe_name : Option String
  job_id : Option String
  job_status : Option String
  job_start_time : Option String
  job_end_time : Option String
deriving DecidableEq

/-- The top-level `except` envelope of `run_recipe`. -/
def runRecipeFail (recipe_name e : String) : RunResult :=
  { status := "error"
    message := "Failed to run recipe \x27" ++ recipe_name ++ "\x27: " ++ e
    recipe_name := Option.none
    job_id := Option.none
    job_status := Option.none
    job_start_time := Option.none
    job_end_time := Option.none }

/-- The early-return dictionary for an unrecognized `build_mode`. -/
def invalidRunModeResult : RunResult :=
  { runRecipeFail "" "" with
    message := "Invalid build_mode. Must be one of: " ++ validModesRepr }

/-- `recipes.run_recipe`, with its trace of attempted client calls. -/
def run_recipe (o : RunOracle) (project_key recipe_name : String)
    (build_mode : Option String) : RunResult × List Call :=
  let t1 := [Call.getProject project_key]
  match o.getProject with
  | .error e => (runRecipeFail recipe_name e, t1)
  | .ok _ =>
    let t2 := t1 ++ [Call.getRecipe recipe_name]
    match o.getRecipe with
    | .error e => (runRecipeFail recipe_name e, t2)
    | .ok _ =>
      if pyTruthyStr build_mode &&
          !(validModes.contains (build_mode.getD "")) then
        (invalidRunModeResult, t2)
      else
        let jt : Option String :=
          if pyTruthyStr build_mode then build_mode else Option.none
        let t3 := t2 ++ [Call.recipeRun recipe_name jt]
        match o.run with
        | .error e => (runRecipeFail recipe_name e, t3)
        | .ok jobId =>
          let t4 := t3 ++ [Call.jobWaitForCompletion jobId]
          match o.waitForCompletion with
          | .error e => (runRecipeFail recipe_name e, t4)
          | .ok jr =>
            ({ status := "ok"
               message :=
                 "Recipe \x27" ++ recipe_name ++ "\x27 executed successfully"
               recipe_name := some recipe_name
               job_id := some jobId
               job_status := some jr.outcome
               job_start_time := some jr.start_time
               job_end_time := some jr.end_time }, t4)

/-- The `params` argument of `create_dataset`. -/
structure CreateParams where
  connection : Option String
  path : Option String
  table : Option String
  schema : Option String
  catalog : Option String
  bucket : Option String
  format_type : Option String
  format_params : Option PyVal
  store_into : Option String

/-- The empty `params` dict (`params or {}`). -/
def CreateParams.empty : CreateParams :=
  { connection := Option.none
    path := Option.none
    table := Option.none
    schema := Option.none
    catalog := Option.none
    bucket := Option.none
    format_type := Option.none
    format_params := Option.none
    store_into := Option.none }

/-- Oracle for `create_dataset`.  The builder mutators `with_store_into` /
`with_format` and the settings mutators `set_format_type` /
`set_format_params` are local object updates in the vendor SDK, so they are
traced but cannot fail; every remote call can. -/
structure CreateOracle where
  getProject : Except String Unit
  newManagedDataset : Except String Unit
  builderCreate : Except String String
  createFilesystemDataset : Except String String
  createSqlTableDataset : Except String String
  createS3Dataset : Except String String
  createUploadDataset : Except String String
  createDatasetGeneric : Except String String
  dsGetSettings : Except String Unit
  settingsSave : Except String Unit

/-- Return dictionary of `create_dataset`. -/
structure CreateResult where
  status : String
  message : String
  dataset_name : Option String
  dataset_type : Option String
  dataset_id : Option String
  project_key : Option String
deriving DecidableEq

/-- The top-level `except` envelope of `create_dataset`. -/
def createFail (dataset_name e : String) : CreateResult :=
  { status := "error"
    message := "Failed to create dataset \x27" ++ dataset_name ++ "\x27: " ++ e
    dataset_name := Option.none
    dataset_type := Option.none
    dataset_id := Option.none
    project_key := Option.none }

/-- An early-return parameter-validation error of `create_dataset`. -/
def createParamError (msg : String) : CreateResult :=
  { createFail "" "" with message := msg }

/-- The creation dispatch of `create_dataset`: picks the branch from
`dataset_type.lower()` and returns the new dataset id (or an early-return
result), together with the calls it attempted. -/
def createDispatch (o : CreateOracle) (dataset_name dataset_type : String)
    (params : CreateParams) : Except String (Sum String CreateResult) × List Call :=
  if pyLower dataset_type = "managed" then
    let store_into := params.store_into.getD "filesystem_managed"
    let t := [Call.newManagedDataset dataset_name, Call.withStoreInto store_into]
    match o.newManagedDataset with
    | .error e => (.error e, [Call.newManagedDataset dataset_name])
    | .ok _ =>
      let t2 := if pyTruthyStr params.format_type then
          t ++ [Call.withFormat (params.format_type.getD "")]
        else t
      let t3 := t2 ++ [Call.builderCreate]
      match o.builderCreate with
      | .error e => (.error e, t3)
      | .ok dsId => (.ok (.inl dsId), t3)
  else if pyLower dataset_type = "filesystem" then
    let connection := params.connection.getD "filesystem_managed"
    if !(pyTruthyStr params.path) then
      (.ok (.inr (createParamError "Path is required for filesystem datasets")),
       [])
    else
      let t := [Call.createFilesystemDataset dataset_name connection
        (params.path.getD "")]
      match o.createFilesystemDataset with
      | .error e => (.error e, t)
      | .ok dsId => (.ok (.inl dsId), t)
  else if pyLower dataset_type = "sql" then
    if !(pyTruthyStr params.connection && pyTruthyStr params.table) then
      (.ok (.inr (createParamError
        "Connection and table are required for SQL datasets")), [])
    else
      let t := [Call.createSqlTableDataset dataset_name
        (params.connection.getD "") (params.table.getD "")]
      match o.createSqlTableDataset with
      | .error e => (.error e, t)
      | .ok dsId => (.ok (.inl dsId), t)
  else if pyLower dataset_type = "s3" then
    if !(pyTruthyStr params.connection && pyTruthyStr params.path) then
      (.ok (.inr (createParamError
        "Connection and path are required for S3 datasets")), [])
    else
      let t := [Call.createS3Dataset dataset_name
        (params.connection.getD "") (params.path.getD "")]
      match o.createS3Dataset with
      | .error e => (.error e, t)
      | .ok dsId => (.ok (.inl dsId), t)
  else if pyLower dataset_type = "uploaded" then
    let t := [Call.createUploadDataset dataset_name]
    match o.createUploadDataset with
    | .error e => (.error e, t)
    | .ok dsId => (.ok (.inl dsId), t)
  else
    let t := [Call.createDatasetGeneric dataset_name dataset_type]
    match o.createDatasetGeneric with
    | .error e => (.error e, t)
    | .ok dsId => (.ok (.inl dsId), t)

/-- `datasets.create_dataset`, with its trace of attempted client calls. -/
def create_dataset (o : CreateOracle) (project_key dataset_name
    dataset_type : String) (params0 : Option CreateParams) :
    CreateResult × List Call :=
  let params := params0.getD CreateParams.empty
  let t1 := [Call.getProject project_key]
  match o.getProject with
  | .error e => (createFail dataset_name e, t1)
  | .ok _ =>
    let (disp, td) := createDispatch o dataset_name dataset_type params
    let t2 := t1 ++ td
    match disp with
    | .error e => (createFail dataset_name e, t2)
    | .ok (.inr earlyErr) => (earlyErr, t2)
    | .ok (.inl dsId) =>
      if pyTruthyStr params.format_type && pyLower dataset_type ≠ "managed" then
        let t3 := t2 ++ [Call.dsGetSettings]
        match o.dsGetSettings with
        | .error e => (createFail dataset_name e, t3)
        | .ok _ =>
          let t4 := t3 ++ [Call.setFormatType (params.format_type.getD "")]
          let t5 := if params.format_params.isSome then
              t4 ++ [Call.setFormatParams]
            else t4
          let t6 := t5 ++ [Call.settingsSave]
          match o.settingsSave with
          | .error e => (createFail dataset_name e, t6)
          | .ok _ =>
            ({ status := "ok"
               message :=
                 "Dataset \x27" ++ dataset_name ++ "\x27 created successfully"
               dataset_name := some dataset_name
               dataset_type := some dataset_type
               dataset_id := some dsId
               project_key := some project_key }, t6)
      else
        ({ status := "ok"
           message :=
             "Dataset \x27" ++ dataset_name ++ "\x27 created successfully"
           dataset_name := some dataset_name
           dataset_type := some dataset_type
           dataset_id := some dsId
           project_key := some project_key }, t2)

/-! ## `datasets.get_dataset_post_write_statements` -/

/-- Oracle for `get_dataset_post_write_statements`. -/
structure PostWriteOracle where
  getProject : Except String Unit
  getDataset : Except String Unit
  getSettings : Except String PyVal

/-- Return dictionary of `get_dataset_post_write_statements`. -/
structure PostWriteResult where
  status : String
  message : String
  dataset_name : Option String
  project_key : Option String
  pre_write_statements : Option PyVal
  post_write_statements : Option PyVal
  has_pre_write : Option Bool
  has_post_write : Option Bool

/-- The `try` body of `get_dataset_post_write_statements`. -/
def postWriteBody (o : PostWriteOracle) (project_key dataset_name : String) :
    Except String PostWriteResult := do
  let _ ← o.getProject
  let _ ← o.getDataset
  let raw ← o.getSettings
  let params ← pyGetD raw "params" (.dict [])
  let post ← pyGetD params "customPostWriteStatements" (.list [])
  let pre ← pyGetD params "customPreWriteStatements" (.list [])
  pure
    { status := "ok"
      message := "Post-write statements for dataset \x27" ++ dataset_name ++
        "\x27 retrieved successfully"
      dataset_name := some dataset_name
      project_key := some project_key
      pre_write_statements := some pre
      post_write_statements := some post
      has_pre_write := some (pyTruthy pre)
      has_post_write := some (pyTruthy post) }

/-- `datasets.get_dataset_post_write_statements`. -/
def get_dataset_post_write_statements (o : PostWriteOracle)
    (project_key dataset_name : String) : PostWriteResult :=
  match postWriteBody o project_key dataset_name with
  | .ok r => r
  | .error e =>
      { status := "error"
        message := "Failed to get post-write statements for dataset \x27" ++
          dataset_name ++ "\x27: " ++ e
        dataset_name := Option.none
        project_key := Option.none
        pre_write_statements := Option.none
        post_write_statements := Option.none
        has_pre_write := Option.none
        has_post_write := Option.none }

/-! ## `advanced_scenarios.get_scenario_logs` -/

/-- One scenario run as returned by `scenario.get_last_runs`.  `runId`
models `getattr(run, "id", None)`; `trigger_type` models the
`hasattr`-guarded attribute. -/
structure ScenarioRun where
  runId : Option String
  start_time : String
  end_time : String
  outcome : String
  duration : String
  trigger_type : Option String
deriving DecidableEq

/-- One step run of a scenario run (optional attributes are
`hasattr`-guarded in the source). -/
structure StepRun where
  step_name : Option String
  start_time : Option String
deriving DecidableEq

/-- One job attached to a scenario run. -/
structure JobRef where
  job_id : String
  job_name : Option String
  start_time : Option String
deriving DecidableEq

/-- One entry of the `logs` list built by `get_scenario_logs`. -/
structure LogEntry where
  ltype : String
  content : String
  timestamp : String
  step_index : Option Nat
  step_name : Option String
  job_id : Option String
  job_name : Option String
deriving DecidableEq

/-- The `run_info` block of `get_scenario_logs`. -/
structure RunInfo where
  run_id : String
  start_time : String
  end_time : String
  outcome : String
  duration : String
  trigger : String
deriving DecidableEq

/-- Oracle for `get_scenario_logs`. -/
structure LogsOracle where
  getProject : Except String Unit
  getScenario : Except String Unit
  getLastRuns : Except String (List ScenarioRun)
  getLog : ScenarioRun → Except String (Option String)
  getStepRuns : ScenarioRun → Except String (List StepRun)
  stepGetLog : StepRun → Except String (Option String)
  getJobs : ScenarioRun → Except String (List JobRef)
  jobGetLog : JobRef → Except String (Option String)

/-- Return dictionary of `get_scenario_logs` (`run_info := Option.none`
models the empty dict of the no-runs path; absent keys are `Option.none`). -/
structure LogsResult where
  status : String
  message : Option String
  scenario_id : Option String
  run_info : Option RunInfo
  logs : Option (List LogEntry)
  log_count : Option Nat
deriving DecidableEq

/-- A `LogEntry` with only type, content and timestamp set. -/
def basicEntry (ltype content timestamp : String) : LogEntry :=
  { ltype := ltype
    content := content
    timestamp := timestamp
    step_index := Option.none
    step_name := Option.none
    job_id := Option.none
    job_name := Option.none }

/-- The main-scenario-log block (inner `try/except`). -/
def mainLogEntries (o : LogsOracle) (r : ScenarioRun) : List LogEntry :=
  match o.getLog r with
  | .ok ml =>
      if pyTruthyStr ml then
        [basicEntry "scenario_log" (ml.getD "") r.start_time]
      else []
  | .error e =>
      [basicEntry "error" ("Could not retrieve scenario log: " ++ e)
        r.start_time]

/-- One iteration of the step-log loop (inner `try/except` per step). -/
def stepLogEntry (o : LogsOracle) (r : ScenarioRun) (i : Nat) (sr : StepRun) :
    List LogEntry :=
  match o.stepGetLog sr with
  | .ok sl =>
      if pyTruthyStr sl then
        [{ basicEntry "step_log" (sl.getD "")
             (sr.start_time.getD r.start_time) with
           step_index := some i
           step_name := some (sr.step_name.getD ("Step " ++ toString i)) }]
      else []
  | .error e =>
      [{ basicEntry "step_error" ("Could not retrieve step log: " ++ e)
           r.start_time with
         step_index := some i }]

/-- The enumerated step-log loop. -/
def stepLogsLoop (o : LogsOracle) (r : ScenarioRun) :
    Nat → List StepRun → List LogEntry
  | _, [] => []
  | i, sr :: rest => stepLogEntry o r i sr ++ stepLogsLoop o r (i + 1) rest

/-- The step-logs block (outer `try/except` around `get_step_runs`). -/
def stepLogEntries (o : LogsOracle) (r : ScenarioRun) : List LogEntry :=
  match o.getStepRuns r with
  | .ok srs => stepLogsLoop o r 0 srs
  | .error e =>
      [basicEntry "error" ("Could not retrieve step runs: " ++ e)
        r.start_time]

/-- One iteration of the job-log loop (inner `try/except` per job). -/
def jobLogEntry (o : LogsOracle) (r : ScenarioRun) (j : JobRef) :
    List LogEntry :=
  match o.jobGetLog j with
  | .ok jl =>
      if pyTruthyStr jl then
        [{ basicEntry "job_log" (jl.getD "")
             (j.start_time.getD r.start_time) with
           job_id := some j.job_id
           job_name := some (j.job_name.getD ("Job " ++ j.job_id)) }]
      else []
  | .error e =>
      [{ basicEntry "job_error" ("Could not retrieve job log: " ++ e)
           r.start_time with
         job_id := some j.job_id }]

/-- The job-logs block (outer `try/except` around `get_jobs`). -/
def jobLogEntries (o : LogsOracle) (r : ScenarioRun) : List LogEntry :=
  match o.getJobs r with
  | .ok js => concatMap (jobLogEntry o r) js
  | .error e =>
      [basicEntry "error" ("Could not retrieve jobs: " ++ e) r.start_time]

/-- The success path of `get_scenario_logs` for a chosen target run. -/
def logsAssemble (o : LogsOracle) (scenario_id : String)
    (target : ScenarioRun) : LogsResult :=
  let run_info : RunInfo :=
    { run_id := target.runId.getD "unknown"
      start_time := target.start_time
      end_time := target.end_time
      outcome := target.outcome
      duration := target.duration
      trigger := target.trigger_type.getD "unknown" }
  let logs := mainLogEntries o target ++ stepLogEntries o target ++
    jobLogEntries o target
  { status := "ok"
    message := Option.none
    scenario_id := some scenario_id
    run_info := some run_info
    logs := some logs
    log_count := some logs.length }

/-- The top-level `except` envelope of `get_scenario_logs`. -/
def logsFail (e : String) : LogsResult :=
  { status := "error"
    message := some ("Failed to get scenario logs: " ++ e)
    scenario_id := Option.none
    run_info := Option.none
    logs := Option.none
    log_count := Option.none }

/-- `advanced_scenarios.get_scenario_logs`. -/
def get_scenario_logs (o : LogsOracle) (project_key scenario_id : String)
    (run_id : Option String) : LogsResult :=
  match o.getProject with
  | .error e => logsFail e
  | .ok _ =>
  match o.getScenario with
  | .error e => logsFail e
  | .ok _ =>
  match o.getLastRuns with
  | .error e => logsFail e
  | .ok runs =>
    match runs with
    | [] =>
        { status := "ok"
          message := some "No runs found for this scenario"
          scenario_id := Option.none
          run_info := Option.none
          logs := some []
          log_count := Option.none }
    | r0 :: _ =>
        if pyTruthyStr run_id then
          match runs.find? (fun r => r.runId == run_id) with
          | Option.none =>
              { status := "error"
                message := some ("Run ID \x27" ++ run_id.getD "" ++
                  "\x27 not found")
                scenario_id := Option.none
                run_info := Option.none
                logs := Option.none
                log_count := Option.none }
          | some target => logsAssemble o scenario_id target
        else logsAssemble o scenario_id r0

/-! ## `project_exploration.get_project_flow` -/

/-- One dataset listing entry (`project.list_datasets()`). -/
structure DatasetListing where
  name : String
  dtype : String
  tags : List String
deriving DecidableEq

/-- One recipe listing entry (`project.list_recipes()`). -/
structure RecipeListing where
  name : String
  rtype : String
  tags : List String
deriving DecidableEq

/-- An input/output reference of a recipe definition
(`input_def["ref"]`). -/
structure IORef where
  ref : String
deriving DecidableEq

/-- A recipe definition as used by the flow builder. -/
structure RecipeDef where
  inputs : List IORef
  outputs : List IORef
deriving DecidableEq

/-- A flow node (`"from"`/`"to"` keys are `src`/`dst` here); `subtype`
carries the `dataset_type`/`recipe_type` key. -/
structure FlowNode where
  id : String
  name : String
  ntype : String
  subtype : String
  tags : List String
deriving DecidableEq

/-- A flow edge; `src`/`dst` model the `"from"`/`"to"` keys. -/
structure FlowEdge where
  src : String
  dst : String
  etype : String
deriving DecidableEq

/-- The node list of `get_project_flow`: datasets first, then recipes. -/
def flowNodes (datasets : List DatasetListing)
    (recipes : List RecipeListing) : List FlowNode :=
  datasets.map (fun d =>
    { id := d.name, name := d.name, ntype := "dataset", subtype := d.dtype,
      tags := d.tags }) ++
  recipes.map (fun r =>
    { id := r.name, name := r.name, ntype := "recipe", subtype := r.rtype,
      tags := r.tags })

/-- The edges contributed by one recipe definition: `input` edges then
`output` edges. -/
def recipeEdges (name : String) (d : RecipeDef) : List FlowEdge :=
  d.inputs.map (fun i => { src := i.ref, dst := name, etype := "input" }) ++
  d.outputs.map (fun x => { src := name, dst := x.ref, etype := "output" })

/-- Oracle for `get_project_flow`. -/
structure FlowOracle where
  getProject : Except String Unit
  listDatasets : Except String (List DatasetListing)
  listRecipes : Except String (List RecipeListing)
  getRecipe : String → Except String Unit
  getDefinition : String → Except String RecipeDef

/-- The edge list of `get_project_flow`: recipes whose details raise are
skipped (inner `try/except ... continue`). -/
def flowEdges (o : FlowOracle) (recipes : List RecipeListing) :
    List FlowEdge :=
  concatMap (fun r =>
    match o.getRecipe r.name with
    | .error _ => []
    | .ok _ =>
        match o.getDefinition r.name with
        | .ok d => recipeEdges r.name d
        | .error _ => []) recipes

/-- The per-node dependency record. -/
structure NodeDeps where
  depends_on : List String
  used_by : List String
deriving DecidableEq

/-- `if key not in deps: deps[key] = empty` followed by a field mutation,
as one update-or-insert on the insertion-ordered dict. -/
def updateEntry (m : List (String × NodeDeps)) (k : String)
    (f : NodeDeps → NodeDeps) : List (String × NodeDeps) :=
  match m with
  | [] => [(k, f { depends_on := [], used_by := [] })]
  | (k2, d) :: rest =>
      if k2 = k then (k2, f d) :: rest
      else (k2, d) :: updateEntry rest k f

/-- One iteration of the dependency scan: on an `input` edge the recipe
(`dst`) gains a dependency and the dataset (`src`) a dependent; on an
`output` edge the dataset (`dst`) gains a dependency and the recipe
(`src`) a dependent. -/
def depStep (m : List (String × NodeDeps)) (e : FlowEdge) :
    List (String × NodeDeps) :=
  if e.etype = "input" then
    updateEntry
      (updateEntry m e.dst
        (fun d => { d with depends_on := d.depends_on ++ [e.src] }))
      e.src (fun d => { d with used_by := d.used_by ++ [e.dst] })
  else if e.etype = "output" then
    updateEntry
      (updateEntry m e.dst
        (fun d => { d with depends_on := d.depends_on ++ [e.src] }))
      e.src (fun d => { d with used_by := d.used_by ++ [e.dst] })
  else m

/-- The single scan over the edge list that builds the dependency map. -/
def buildDeps (edges : List FlowEdge) : List (String × NodeDeps) :=
  edges.foldl depStep []

/-- Lookup in the dependency map. -/
def lookupDep (m : List (String × NodeDeps)) (k : String) : Option NodeDeps :=
  match m with
  | [] => Option.none
  | (k2, d) :: rest => if k2 = k then some d else lookupDep rest k

/-- The mapped nodes with empty `depends_on`, in map order. -/
def rootNodes (m : List (String × NodeDeps)) : List String :=
  (m.filter (fun p => p.2.depends_on.isEmpty)).map Prod.fst

/-- The mapped nodes with empty `used_by`, in map order. -/
def leafNodes (m : List (String × NodeDeps)) : List String :=
  (m.filter (fun p => p.2.used_by.isEmpty)).map Prod.fst

/-- Modelled from the spec: the sources of the incoming edges of `n`, in
edge order. -/
def incomingSrcs (edges : List FlowEdge) (n : String) : List String :=
  (edges.filter (fun e => e.dst == n)).map FlowEdge.src

/-- Modelled from the spec: the targets of the outgoing edges of `n`, in
edge order. -/
def outgoingDsts (edges : List FlowEdge) (n : String) : List String :=
  (edges.filter (fun e => e.src == n)).map FlowEdge.dst

/-- The `flow_stats` block. -/
structure FlowStats where
  total_nodes : Nat
  total_edges : Nat
  datasets : Nat
  recipes : Nat
  root_nodes : Nat
  leaf_nodes : Nat
deriving DecidableEq

/-- Return dictionary of `get_project_flow`. -/
structure FlowResult where
  status : String
  message : Option String
  project_key : Option String
  nodes : Option (List FlowNode)
  edges : Option (List FlowEdge)
  dependencies : Option (List (String × NodeDeps))
  root_nodes : Option (List String)
  leaf_nodes : Option (List String)
  flow_stats : Option FlowStats
deriving DecidableEq

/-- `project_exploration.get_project_flow`. -/
def get_project_flow (o : FlowOracle) (project_key : String) : FlowResult :=
  match o.getProject with
  | .error e =>
      { status := "error"
        message := some ("Failed to get project flow: " ++ e)
        project_key := Option.none, nodes := Option.none,
        edges := Option.none, dependencies := Option.none,
        root_nodes := Option.none, leaf_nodes := Option.none,
        flow_stats := Option.none }
  | .ok _ =>
  match o.listDatasets with
  | .error e =>
      { status := "error"
        message := some ("Failed to get project flow: " ++ e)
        project_key := Option.none, nodes := Option.none,
        edges := Option.none, dependencies := Option.none,
        root_nodes := Option.none, leaf_nodes := Option.none,
        flow_stats := Option.none }
  | .ok datasets =>
  match o.listRecipes with
  | .error e =>
      { status := "error"
        message := some ("Failed to get project flow: " ++ e)
        project_key := Option.none, nodes := Option.none,
        edges := Option.none, dependencies := Option.none,
        root_nodes := Option.none, leaf_nodes := Option.none,
        flow_stats := Option.none }
  | .ok recipes =>
    let nodes := flowNodes datasets recipes
    let edges := flowEdges o recipes
    let deps := buildDeps edges
    let roots := rootNodes deps
    let leaves := leafNodes deps
    { status := "ok"
      message := Option.none
      project_key := some project_key
      nodes := some nodes
      edges := some edges
      dependencies := some deps
      root_nodes := some roots
      leaf_nodes := some leaves
      flow_stats := some
        { total_nodes := nodes.length
          total_edges := edges.length
          datasets := datasets.length
          recipes := recipes.length
          root_nodes := roots.length
          leaf_nodes := leaves.length } }

/-! ## `project_exploration.search_project_objects` -/

/-- One dataset/recipe listing entry as consumed by the search tool
(`description` and `tags` are read with `.get` defaults). -/
structure ObjListing where
  name : String
  otype : String
  description : Option String
  tags : Option (List String)
deriving DecidableEq

/-- One scenario listing entry as consumed by the search tool. -/
structure ScenListing where
  name : String
  sid : String
  stype : String
  description : Option String
  tags : Option (List String)
  active : Option Bool
deriving DecidableEq

/-- Oracle for `search_project_objects`. -/
structure SearchOracle where
  getProject : Except String Unit
  listDatasets : Except String (List ObjListing)
  listRecipes : Except String (List ObjListing)
  listScenarios : Except String (List ScenListing)

/-- The match test of the search loops: a compiled pattern if the regex
compiled, otherwise lowercase substring containment against name,
description and each tag. -/
def objMatches (pattern : Option (String → Bool)) (term : String)
    (name desc : String) (tags : List String) : Bool :=
  match pattern with
  | some p => p name || p desc || tags.any p
  | Option.none =>
      let t := pyLower term
      pyIn t (pyLower name) || pyIn t (pyLower desc) ||
        tags.any (fun tg => pyIn t (pyLower tg))

/-- The `match_type` computation (always substring-based). -/
def matchKind (term name : String) : String :=
  if pyIn (pyLower term) (pyLower name) then "name" else "metadata"

/-- One search-result entry for a dataset or recipe. -/
structure DatasetMatch where
  name : String
  otype : String
  description : String
  tags : List String
  match_type : String
deriving DecidableEq

/-- One search-result entry for a scenario. -/
structure ScenarioMatch where
  name : String
  sid : String
  stype : String
  description : String
  tags : List String
  active : Bool
  match_type : String
deriving DecidableEq

/-- An append-if-matching loop over a listing. -/
def collectMatches (keep : α → Bool) (mk : α → β) : List α → List β
  | [] => []
  | x :: rest =>
      if keep x then mk x :: collectMatches keep mk rest
      else collectMatches keep mk rest

/-- Match test for one dataset/recipe listing entry. -/
def objKeep (pattern : Option (String → Bool)) (term : String)
    (d : ObjListing) : Bool :=
  objMatches pattern term d.name (d.description.getD "") (d.tags.getD [])

/-- Result entry for one matched dataset/recipe listing entry. -/
def mkObjMatch (term : String) (d : ObjListing) : DatasetMatch :=
  { name := d.name
    otype := d.otype
    description := d.description.getD ""
    tags := d.tags.getD []
    match_type := matchKind term d.name }

/-- Match test for one scenario listing entry. -/
def scenKeep (pattern : Option (String → Bool)) (term : String)
    (s : ScenListing) : Bool :=
  objMatches pattern term s.name (s.description.getD "") (s.tags.getD [])

/-- Result entry for one matched scenario listing entry. -/
def mkScenMatch (term : String) (s : ScenListing) : ScenarioMatch :=
  { name := s.name
    sid := s.sid
    stype := s.stype
    description := s.description.getD ""
    tags := s.tags.getD []
    active := s.active.getD false
    match_type := matchKind term s.name }

/-- The `search_stats` block. -/
structure SearchStats where
  search_term : String
  object_types_searched : List String
  total_matches : Nat
  matches_by_type : List (String × Nat)
deriving DecidableEq

/-- Return dictionary of `search_project_objects`. -/
structure SearchResult where
  status : String
  message : Option String
  project_key : Option String
  search_stats : Option SearchStats
  datasets : Option (List DatasetMatch)
  recipes : Option (List DatasetMatch)
  scenarios : Option (List ScenarioMatch)
deriving DecidableEq

/-- The `try` body of `search_project_objects`.  `rc` models
`re.compile(search_term, re.IGNORECASE)`: `Option.none` means the pattern
failed to compile (`re.error`). -/
def searchBody (rc : String → Option (String → Bool)) (o : SearchOracle)
    (project_key search_term : String) (object_types : Option (List String)) :
    Except String SearchResult := do
  let _ ← o.getProject
  let otypes := object_types.getD ["datasets", "recipes", "scenarios"]
  let pattern := rc search_term
  let dsRes ← if otypes.contains "datasets" then do
      let ds ← o.listDatasets
      pure (some (collectMatches (objKeep pattern search_term)
        (mkObjMatch search_term) ds))
    else pure Option.none
  let rcRes ← if otypes.contains "recipes" then do
      let rs ← o.listRecipes
      pure (some (collectMatches (objKeep pattern search_term)
        (mkObjMatch search_term) rs))
    else pure Option.none
  let scRes ← if otypes.contains "scenarios" then do
      let ss ← o.listScenarios
      pure (some (collectMatches (scenKeep pattern search_term)
        (mkScenMatch search_term) ss))
    else pure Option.none
  let byType : List (String × Nat) :=
    (match dsRes with
      | some l => [("datasets", l.length)]
      | Option.none => []) ++
    (match rcRes with
      | some l => [("recipes", l.length)]
      | Option.none => []) ++
    (match scRes with
      | some l => [("scenarios", l.length)]
      | Option.none => [])
  let total := (byType.map Prod.snd).sum
  pure
    { status := "ok"
      message := Option.none
      project_key := some project_key
      search_stats := some
        { search_term := search_term
          object_types_searched := otypes
          total_matches := total
          matches_by_type := byType }
      datasets := dsRes
      recipes := rcRes
      scenarios := scRes }

/-- `project_exploration.search_project_objects`. -/
def search_project_objects (rc : String → Option (String → Bool))
    (o : SearchOracle) (project_key search_term : String)
    (object_types : Option (List String)) : SearchResult :=
  match searchBody rc o project_key search_term object_types with
  | .ok r => r
  | .error e =>
      { status := "error"
        message := some ("Failed to search project objects: " ++ e)
        project_key := Option.none
        search_stats := Option.none
        datasets := Option.none
        recipes := Option.none
        scenarios := Option.none }

/-! ## `productivity.batch_update_objects` -/

/-- A generic accumulate-and-continue loop: each item contributes some
result entries and some error entries, and processing always continues. -/
def accumLoop (step : α → List β × List γ) : List α → List β × List γ
  | [] => ([], [])
  | x :: rest =>
      let (a, b) := step x
      let (a2, b2) := accumLoop step rest
      (a ++ a2, b ++ b2)

/-- One dataset/recipe listing entry as consumed by
`batch_update_objects`. -/
structure BatchListing where
  name : String
  otype : String
deriving DecidableEq

/-- One scenario listing entry as consumed by `batch_update_objects`. -/
structure BatchScenListing where
  name : String
  sid : String
deriving DecidableEq

/-- The `updates` argument of `batch_update_objects`. -/
structure BatchUpdates where
  description : Option String
  tags : Option PyVal
  settings : Option (List (String × PyVal))
  code : Option String
  recipe_params : Option PyVal
  active : Option PyVal

/-- `list(updates.keys())` for the `updates_applied` field. -/
def batchUpdatesKeys (u : BatchUpdates) : List String :=
  (if u.description.isSome then ["description"] else []) ++
  (if u.tags.isSome then ["tags"] else []) ++
  (if u.settings.isSome then ["settings"] else []) ++
  (if u.code.isSome then ["code"] else []) ++
  (if u.recipe_params.isSome then ["recipe_params"] else []) ++
  (if u.active.isSome then ["active"] else [])

/-- Oracle for `batch_update_objects`. -/
structure BatchOracle where
  getProject : Except String Unit
  listDatasets : Except String (List BatchListing)
  listRecipes : Except String (List BatchListing)
  listScenarios : Except String (List BatchScenListing)
  dsGet : String → Except String Unit
  dsGetMetadata : String → Except String PyVal
  dsSetMetadata : String → PyVal → Except String Unit
  dsGetSettingsRaw : String → Except String PyVal
  dsSettingsSave : String → Except String Unit
  rcGet : String → Except String Unit
  rcGetSettings : String → Except String Unit
  rcGetMetadata : String → Except String PyVal
  rcSetMetadata : String → PyVal → Except String Unit
  rcSetCode : String → String → Except String Unit
  rcSetParams : String → PyVal → Except String Unit
  rcSettingsSave : String → Except String Unit
  scGet : String → Except String Unit
  scGetMetadata : String → Except String PyVal
  scSetMetadata : String → PyVal → Except String Unit
  scGetSettings : String → Except String Unit
  scSettingsSave : String → Except String Unit

/-- The pattern test of the matching loops: compiled regex if available,
else lowercase substring containment. -/
def batchMatches (rcp : Option (String → Bool)) (pattern name : String) :
    Bool :=
  match rcp with
  | some p => p name
  | Option.none => pyIn (pyLower pattern) (pyLower name)

/-- The recipe types that accept `set_code`. -/
def codeTypes : List String :=
  ["python", "r", "sql", "pyspark", "scala", "shell"]

/-- The per-item `try` body for a matched dataset. -/
def processDataset (o : BatchOracle) (u : BatchUpdates) (name : String) :
    Except String Unit := do
  let _ ← o.dsGet name
  let pushed ← match u.description with
    | some d => do
        let m ← o.dsGetMetadata name
        let m2 ← pySetE m "description" (.str d)
        let _ ← o.dsSetMetadata name m2
        pure (some m2)
    | Option.none => pure ((Option.none : Option PyVal))
  let _ ← match u.tags with
    | some t => do
        let m ← match pushed with
          | some m => pure m
          | Option.none => o.dsGetMetadata name
        let m2 ← pySetE m "tags" t
        o.dsSetMetadata name m2
    | Option.none => pure ()
  match u.settings with
  | some s => do
      let raw ← o.dsGetSettingsRaw name
      let _ ← pyUpdate raw s
      o.dsSettingsSave name
  | Option.none => pure ()

/-- The per-item `try` body for a matched recipe. -/
def processRecipe (o : BatchOracle) (u : BatchUpdates)
    (name rtype : String) : Except String Unit := do
  let _ ← o.rcGet name
  let _ ← o.rcGetSettings name
  let pushed ← match u.description with
    | some d => do
        let m ← o.rcGetMetadata name
        let m2 ← pySetE m "description" (.str d)
        let _ ← o.rcSetMetadata name m2
        pure (some m2)
    | Option.none => pure ((Option.none : Option PyVal))
  let _ ← match u.tags with
    | some t => do
        let m ← match pushed with
          | some m => pure m
          | Option.none => o.rcGetMetadata name
        let m2 ← pySetE m "tags" t
        o.rcSetMetadata name m2
    | Option.none => pure ()
  let _ ← match u.code with
    | some c =>
        if codeTypes.contains rtype then o.rcSetCode name c
        else pure ()
    | Option.none => pure ()
  let _ ← match u.recipe_params with
    | some p => o.rcSetParams name p
    | Option.none => pure ()
  o.rcSettingsSave name

/-- The per-item `try` body for a matched scenario. -/
def processScenario (o : BatchOracle) (u : BatchUpdates) (sid : String) :
    Except String Unit := do
  let _ ← o.scGet sid
  let pushed ← match u.description with
    | some d => do
        let m ← o.scGetMetadata sid
        let m2 ← pySetE m "description" (.str d)
        let _ ← o.scSetMetadata sid m2
        pure (some m2)
    | Option.none => pure ((Option.none : Option PyVal))
  let _ ← match u.tags with
    | some t => do
        let m ← match pushed with
          | some m => pure m
          | Option.none => o.scGetMetadata sid
        let m2 ← pySetE m "tags" t
        o.scSetMetadata sid m2
    | Option.none => pure ()
  match u.active with
  | some _ => do
      let _ ← o.scGetSettings sid
      o.scSettingsSave sid
  | Option.none => pure ()

/-- One entry of `updated_objects`. -/
structure UpdatedEntry where
  name : String
  otype : String
  sid : Option String
  updates_applied : List String
deriving DecidableEq

/-- One entry of `failed_updates`. -/
structure FailedEntry where
  name : String
  otype : String
  sid : Option String
  error : String
deriving DecidableEq

/-- One iteration of the dataset branch of `batch_update_objects`. -/
def batchItemDs (o : BatchOracle) (u : BatchUpdates)
    (rcp : Option (String → Bool)) (pattern : String) (d : BatchListing) :
    List UpdatedEntry × List FailedEntry :=
  if batchMatches rcp pattern d.name then
    match processDataset o u d.name with
    | .ok _ =>
        ([{ name := d.name, otype := "dataset", sid := Option.none,
            updates_applied := batchUpdatesKeys u }], [])
    | .error e =>
        ([], [{ name := d.name, otype := "dataset", sid := Option.none,
                error := e }])
  else ([], [])

/-- One iteration of the recipe branch of `batch_update_objects`. -/
def batchItemRc (o : BatchOracle) (u : BatchUpdates)
    (rcp : Option (String → Bool)) (pattern : String) (r : BatchListing) :
    List UpdatedEntry × List FailedEntry :=
  if batchMatches rcp pattern r.name then
    match processRecipe o u r.name r.otype with
    | .ok _ =>
        ([{ name := r.name, otype := "recipe", sid := Option.none,
            updates_applied := batchUpdatesKeys u }], [])
    | .error e =>
        ([], [{ name := r.name, otype := "recipe", sid := Option.none,
                error := e }])
  else ([], [])

/-- One iteration of the scenario branch of `batch_update_objects`. -/
def batchItemSc (o : BatchOracle) (u : BatchUpdates)
    (rcp : Option (String → Bool)) (pattern : String)
    (s : BatchScenListing) : List UpdatedEntry × List FailedEntry :=
  if batchMatches rcp pattern s.name then
    match processScenario o u s.sid with
    | .ok _ =>
        ([{ name := s.name, otype := "scenario", sid := some s.sid,
            updates_applied := batchUpdatesKeys u }], [])
    | .error e =>
        ([], [{ name := s.name, otype := "scenario", sid := some s.sid,
                error := e }])
  else ([], [])

/-- The `update_summary` block (Python computes `success_rate` in floating
point; it is modelled exactly as a rational). -/
structure BatchSummary where
  object_type : String
  pattern : String
  objects_updated : Nat
  objects_failed : Nat
  success_rate : ℚ
deriving DecidableEq

/-- Return dictionary of `batch_update_objects` (the `updates_requested`
echo of the summary is carried next to it). -/
structure BatchResult where
  status : String
  message : Option String
  project_key : Option String
  update_summary : Option BatchSummary
  updates_requested : Option BatchUpdates
  updated_objects : Option (List UpdatedEntry)
  failed_updates : Option (List FailedEntry)

/-- The top-level `except` envelope of `batch_update_objects`. -/
def batchFail (e : String) : BatchResult :=
  { status := "error"
    message := some ("Failed to batch update objects: " ++ e)
    project_key := Option.none
    update_summary := Option.none
    updates_requested := Option.none
    updated_objects := Option.none
    failed_updates := Option.none }

/-- The success assembly of `batch_update_objects`. -/
def batchOk (project_key object_type pattern : String) (u : BatchUpdates)
    (upd : List UpdatedEntry) (fld : List FailedEntry) : BatchResult :=
  let total := upd.length + fld.length
  { status := "ok"
    message := Option.none
    project_key := some project_key
    update_summary := some
      { object_type := object_type
        pattern := pattern
        objects_updated := upd.length
        objects_failed := fld.length
        success_rate :=
          if total > 0 then (upd.length : ℚ) / (total : ℚ) * 100 else 0 }
    updates_requested := some u
    updated_objects := some upd
    failed_updates := some fld }

/-- `productivity.batch_update_objects`.  `rc` models
`re.compile(pattern, re.IGNORECASE)` with `Option.none` for `re.error`. -/
def batch_update_objects (rc : String → Option (String → Bool))
    (o : BatchOracle) (project_key object_type pattern : String)
    (updates : BatchUpdates) : BatchResult :=
  match o.getProject with
  | .error e => batchFail e
  | .ok _ =>
    let rcp := rc pattern
    if pyLower object_type = "datasets" then
      match o.listDatasets with
      | .error e => batchFail e
      | .ok lds =>
          let (upd, fld) := accumLoop (batchItemDs o updates rcp pattern) lds
          batchOk project_key object_type pattern updates upd fld
    else if pyLower object_type = "recipes" then
      match o.listRecipes with
      | .error e => batchFail e
      | .ok lrs =>
          let (upd, fld) := accumLoop (batchItemRc o updates rcp pattern) lrs
          batchOk project_key object_type pattern updates upd fld
    else if pyLower object_type = "scenarios" then
      match o.listScenarios with
      | .error e => batchFail e
      | .ok lss =>
          let (upd, fld) := accumLoop (batchItemSc o updates rcp pattern) lss
          batchOk project_key object_type pattern updates upd fld
    else
      { status := "error"
        message := some ("Unsupported object type: " ++ object_type ++
          ". Supported types: datasets, recipes, scenarios")
        project_key := Option.none
        update_summary := Option.none
        updates_requested := Option.none
        updated_objects := Option.none
        failed_updates := Option.none }

/-! ## `productivity.duplicate_project_structure` -/

/-- One dataset listing entry as consumed by
`duplicate_project_structure`. -/
structure DupDsListing where
  name : String
  dtype : String
deriving DecidableEq

/-- One recipe listing entry as consumed by
`duplicate_project_structure`. -/
structure DupRcListing where
  name : String
  rtype : String
deriving DecidableEq

/-- One scenario listing entry as consumed by
`duplicate_project_structure`. -/
structure DupScListing where
  name : String
  stype : String
  sid : String
deriving DecidableEq

/-- Oracle for `duplicate_project_structure`. -/
structure DupOracle where
  getClient : Except String Unit
  getSourceProject : Except String Unit
  createProject : Except String Unit
  getTargetProject : Except String Unit
  getVariables : Except String (List String × List String)
  setVariables : Except String Unit
  listDatasets : Except String (List DupDsListing)
  dsGet : String → Except String Unit
  dsGetSettings : String → Except String Unit
  dsGetSchema : String → Except String Unit
  tgtCreateDataset : String → Except String Unit
  tgtSetSchema : String → Except String Unit
  dsGetDataframe : String → Except String Unit
  tgtWriteWithSchema : String → Except String Unit
  listRecipes : Except String (List DupRcListing)
  rcGet : String → Except String Unit
  rcGetSettings : String → Except String Unit
  rcGetDefinition : String → Except String RecipeDef
  tgtNewRecipe : String → Except String Unit
  withInput : String → String → Except String Unit
  withOutput : String → String → Except String Unit
  builderBuild : String → Except String Unit
  tgtRcGetSettings : String → Except String Unit
  rcGetCode : String → Except String String
  tgtRcSetCode : String → Except String Unit
  rcGetParams : String → Except String PyVal
  tgtRcSetParams : String → Except String Unit
  tgtRcSave : String → Except String Unit
  listScenarios : Except String (List DupScListing)
  scGet : String → Except String Unit
  scGetSettings : String → Except String ScenarioSettings
  scGetMetadata : String → Except String PyVal
  tgtCreateScenario : String → Except String String
  tgtScGetSettings : String → Except String Unit
  tgtScSave : String → Except String Unit
  tgtScSetMetadata : String → Except String Unit

/-- One entry of `copied_objects["datasets"]`. -/
structure CopiedDataset where
  name : String
  dtype : String
  data_copied : Bool
deriving DecidableEq

/-- One entry of `copied_objects["recipes"]`. -/
structure CopiedRecipe where
  name : String
  rtype : String
  inputs : List String
  outputs : List String
deriving DecidableEq

/-- One entry of `copied_objects["scenarios"]`. -/
structure CopiedScenario where
  name : String
  stype : String
  sid : String
  steps : Nat
  triggers : Nat
deriving DecidableEq

/-- The variables-copy phase (its own `try/except`). -/
def dupVars (o : DupOracle) : List String × List String :=
  match o.getVariables with
  | .error e => ([], ["Failed to copy variables: " ++ e])
  | .ok (std, loc) =>
      match o.setVariables with
      | .error e => ([], ["Failed to copy variables: " ++ e])
      | .ok _ => (std ++ loc, [])

/-- The `try` body for copying one dataset: result entries plus the errors
emitted before any raise. -/
def dupDsBody (o : DupOracle) (include_data : Bool) (d : DupDsListing) :
    Except String (List CopiedDataset) × List String :=
  match o.dsGet d.name with
  | .error e => (.error e, [])
  | .ok _ =>
  match o.dsGetSettings d.name with
  | .error e => (.error e, [])
  | .ok _ =>
  match o.dsGetSchema d.name with
  | .error e => (.error e, [])
  | .ok _ =>
  if d.dtype = "UploadedFiles" then
    (.ok [], ["Skipped uploaded file dataset: " ++ d.name])
  else
  match o.tgtCreateDataset d.name with
  | .error e => (.error e, [])
  | .ok _ =>
  match o.tgtSetSchema d.name with
  | .error e => (.error e, [])
  | .ok _ =>
    let dataErrs :=
      if include_data && (d.dtype = "managed" || d.dtype = "filesystem") then
        match o.dsGetDataframe d.name with
        | .error e => ["Failed to copy data for " ++ d.name ++ ": " ++ e]
        | .ok _ =>
            match o.tgtWriteWithSchema d.name with
            | .error e => ["Failed to copy data for " ++ d.name ++ ": " ++ e]
            | .ok _ => []
      else []
    (.ok [{ name := d.name, dtype := d.dtype, data_copied := include_data }],
     dataErrs)

/-- One iteration of the dataset-copy loop (outer per-item
`try/except`). -/
def dupDsOne (o : DupOracle) (include_data : Bool) (d : DupDsListing) :
    List CopiedDataset × List String :=
  match dupDsBody o include_data d with
  | (.ok ents, errs) => (ents, errs)
  | (.error e, errs) =>
      ([], errs ++ ["Failed to copy dataset " ++ d.name ++ ": " ++ e])

/-- The `with_input` loop of the recipe copy (inner `try/except` per
input). -/
def dupRcInputs (o : DupOracle) (rname : String) :
    List String → List String
  | [] => []
  | inp :: rest =>
      (match o.withInput rname inp with
       | .ok _ => []
       | .error _ =>
           ["Failed to add input " ++ inp ++ " to recipe " ++ rname]) ++
      dupRcInputs o rname rest

/-- The `with_output` loop of the recipe copy (inner `try/except` per
output). -/
def dupRcOutputs (o : DupOracle) (rname : String) :
    List String → List String
  | [] => []
  | out :: rest =>
      (match o.withOutput rname out with
       | .ok _ => []
       | .error _ =>
           ["Failed to add output " ++ out ++ " to recipe " ++ rname]) ++
      dupRcOutputs o rname rest

/-- The `try` body for copying one recipe. -/
def dupRcBody (o : DupOracle) (r : DupRcListing) :
    Except String (List CopiedRecipe) × List String :=
  match o.rcGet r.name with
  | .error e => (.error e, [])
  | .ok _ =>
  match o.rcGetSettings r.name with
  | .error e => (.error e, [])
  | .ok _ =>
  match o.rcGetDefinition r.name with
  | .error e => (.error e, [])
  | .ok rdef =>
    let inputs := rdef.inputs.map IORef.ref
    let outputs := rdef.outputs.map IORef.ref
    match o.tgtNewRecipe r.name with
    | .error e => (.error e, [])
    | .ok _ =>
      let inErrs := dupRcInputs o r.name inputs
      let outErrs := dupRcOutputs o r.name outputs
      match o.builderBuild r.name with
      | .error e => (.error e, inErrs ++ outErrs)
      | .ok _ =>
      match o.tgtRcGetSettings r.name with
      | .error e => (.error e, inErrs ++ outErrs)
      | .ok _ =>
        let codeErrs :=
          if codeTypes.contains r.rtype then
            match o.rcGetCode r.name with
            | .error e =>
                ["Failed to copy code for recipe " ++ r.name ++ ": " ++ e]
            | .ok _ =>
                match o.tgtRcSetCode r.name with
                | .error e =>
                    ["Failed to copy code for recipe " ++ r.name ++ ": " ++ e]
                | .ok _ => []
          else []
        let paramErrs :=
          match o.rcGetParams r.name with
          | .error e =>
              ["Failed to copy parameters for recipe " ++ r.name ++ ": " ++ e]
          | .ok _ =>
              match o.tgtRcSetParams r.name with
              | .error e =>
                  ["Failed to copy parameters for recipe " ++ r.name ++
                    ": " ++ e]
              | .ok _ => []
        match o.tgtRcSave r.name with
        | .error e => (.error e, inErrs ++ outErrs ++ codeErrs ++ paramErrs)
        | .ok _ =>
            (.ok [{ name := r.name, rtype := r.rtype, inputs := inputs,
                    outputs := outputs }],
             inErrs ++ outErrs ++ codeErrs ++ paramErrs)

/-- One iteration of the recipe-copy loop. -/
def dupRcOne (o : DupOracle) (r : DupRcListing) :
    List CopiedRecipe × List String :=
  match dupRcBody o r with
  | (.ok ents, errs) => (ents, errs)
  | (.error e, errs) =>
      ([], errs ++ ["Failed to copy recipe " ++ r.name ++ ": " ++ e])

/-- The `try` body for copying one scenario. -/
def dupScBody (o : DupOracle) (s : DupScListing) :
    Except String (List CopiedScenario) × List String :=
  match o.scGet s.sid with
  | .error e => (.error e, [])
  | .ok _ =>
  match o.scGetSettings s.sid with
  | .error e => (.error e, [])
  | .ok st =>
  match o.scGetMetadata s.sid with
  | .error e => (.error e, [])
  | .ok _ =>
  match o.tgtCreateScenario s.name with
  | .error e => (.error e, [])
  | .ok newId =>
  match o.tgtScGetSettings s.name with
  | .error e => (.error e, [])
  | .ok _ =>
  match o.tgtScSave s.name with
  | .error e => (.error e, [])
  | .ok _ =>
  match o.tgtScSetMetadata s.name with
  | .error e => (.error e, [])
  | .ok _ =>
    (.ok [{ name := s.name, stype := s.stype, sid := newId,
            steps := st.raw_steps.length,
            triggers := st.raw_triggers.length }], [])

/-- One iteration of the scenario-copy loop. -/
def dupScOne (o : DupOracle) (s : DupScListing) :
    List CopiedScenario × List String :=
  match dupScBody o s with
  | (.ok ents, errs) => (ents, errs)
  | (.error e, errs) =>
      ([], errs ++ ["Failed to copy scenario " ++ s.name ++ ": " ++ e])

/-- The `copied_objects` block (`varsCopied` carries the `"variables"`
key, whose name is reserved in Lean). -/
structure CopiedObjects where
  datasets : List CopiedDataset
  recipes : List CopiedRecipe
  scenarios : List CopiedScenario
  varsCopied : List String
  errors : List String
deriving DecidableEq

/-- The `duplication_summary` block (`success_rate` modelled as an exact
rational where Python uses a float). -/
structure DupSummary where
  source_project : String
  target_project : String
  include_data : Bool
  datasets_copied : Nat
  recipes_copied : Nat
  scenarios_copied : Nat
  variables_copied : Nat
  total_errors : Nat
  success_rate : ℚ
deriving DecidableEq

/-- Return dictionary of `duplicate_project_structure`. -/
structure DupResult where
  status : String
  message : Option String
  duplication_summary : Option DupSummary
  copied_objects : Option CopiedObjects
deriving DecidableEq

/-- The top-level `except` envelope of `duplicate_project_structure`. -/
def dupFail (e : String) : DupResult :=
  { status := "error"
    message := some ("Failed to duplicate project structure: " ++ e)
    duplication_summary := Option.none
    copied_objects := Option.none }

/-- The main copy phases of `duplicate_project_structure`, once the target
project exists. -/
def dupMain (o : DupOracle) (source_project_key target_project_key : String)
    (include_data : Bool) : DupResult :=
  let (vars, varErrs) := dupVars o
  match o.listDatasets with
  | .error e => dupFail e
  | .ok ds =>
    let (dsEnts, dsErrs) := accumLoop (dupDsOne o include_data) ds
    match o.listRecipes with
    | .error e => dupFail e
    | .ok rs =>
      let (rcEnts, rcErrs) := accumLoop (dupRcOne o) rs
      match o.listScenarios with
      | .error e => dupFail e
      | .ok ss =>
        let (scEnts, scErrs) := accumLoop (dupScOne o) ss
        let errors := varErrs ++ dsErrs ++ rcErrs ++ scErrs
        let total_copied := dsEnts.length + rcEnts.length + scEnts.length
        let total_source := ds.length + rs.length + ss.length
        { status := "ok"
          message := Option.none
          duplication_summary := some
            { source_project := source_project_key
              target_project := target_project_key
              include_data := include_data
              datasets_copied := dsEnts.length
              recipes_copied := rcEnts.length
              scenarios_copied := scEnts.length
              variables_copied := vars.length
              total_errors := errors.length
              success_rate :=
                if total_source > 0 then
                  (total_copied : ℚ) / (total_source : ℚ) * 100
                else 0 }
          copied_objects := some
            { datasets := dsEnts
              recipes := rcEnts
              scenarios := scEnts
              varsCopied := vars
              errors := errors } }

/-- `productivity.duplicate_project_structure`. -/
def duplicate_project_structure (o : DupOracle)
    (source_project_key target_project_key : String)
    (include_data : Bool) : DupResult :=
  match o.getClient with
  | .error e => dupFail e
  | .ok _ =>
  match o.getSourceProject with
  | .error e => dupFail e
  | .ok _ =>
  match o.createProject with
  | .ok _ => dupMain o source_project_key target_project_key include_data
  | .error e =>
      if pyIn "already exists" (pyLower e) then
        match o.getTargetProject with
        | .error e2 => dupFail e2
        | .ok _ => dupMain o source_project_key target_project_key include_data
      else
        { status := "error"
          message := some ("Failed to create target project: " ++ e)
          duplication_summary := Option.none
          copied_objects := Option.none }

/-! ## Helper lemmas -/

theorem strPrefix_ne_empty (a b : String) (h : 0 < a.length) :
    a ++ b ≠ "" := by
  intro hc
  have h2 : (a ++ b).length = a.length + b.length := by simp
  rw [hc] at h2
  simp at h2
  omega

theorem msg3_ne (p m s : String) (hp : 0 < p.length) : p ++ m ++ s ≠ "" := by
  have h1 : 0 < (p ++ m).length := by
    have : (p ++ m).length = p.length + m.length := by simp
    omega
  exact strPrefix_ne_empty (p ++ m) s h1

theorem msg4_ne (p m s e : String) (hp : 0 < p.length) :
    p ++ m ++ s ++ e ≠ "" := by
  have h1 : 0 < (p ++ m ++ s).length := by
    have : (p ++ m ++ s).length = p.length + m.length + s.length := by simp
    omega
  exact strPrefix_ne_empty (p ++ m ++ s) e h1

theorem accumLoop_eq (step : α → List β × List γ) (l : List α) :
    accumLoop step l =
      (concatMap (fun x => (step x).1) l, concatMap (fun x => (step x).2) l) := by
  induction l with
  | nil => rfl
  | cons x rest ih => simp [accumLoop, concatMap, ih]

theorem concatMap_mem (f : α → List β) (l : List α) (x : α) (hx : x ∈ l)
    (b : β) (hb : b ∈ f x) : b ∈ concatMap f l := by
  induction l with
  | nil => cases hx
  | cons y rest ih =>
      rcases List.mem_cons.mp hx with h | h
      · subst h
        exact List.mem_append.mpr (Or.inl hb)
      · exact List.mem_append.mpr (Or.inr (ih h))

theorem collectMatches_eq (keep : α → Bool) (mk : α → β) (l : List α) :
    collectMatches keep mk l = (l.filter keep).map mk := by
  induction l with
  | nil => rfl
  | cons x rest ih =>
      by_cases h : keep x <;> simp [collectMatches, List.filter_cons, h, ih]

theorem lookupDep_updateEntry (m : List (String × NodeDeps)) (k n : String)
    (f : NodeDeps → NodeDeps) :
    lookupDep (updateEntry m k f) n =
      if n = k then
        some (f ((lookupDep m k).getD { depends_on := [], used_by := [] }))
      else lookupDep m n := by
  induction m with
  | nil =>
      by_cases h : n = k
      · subst h
        simp [updateEntry, lookupDep]
      · have h2 : ¬ k = n := fun hc => h hc.symm
        simp [updateEntry, lookupDep, h, h2]
  | cons hd tl ih =>
      match hd with
      | (k2, d) =>
        by_cases h2 : k2 = k
        · subst h2
          by_cases hn : n = k2
          · subst hn
            simp [updateEntry, lookupDep]
          · have hn2 : ¬ k2 = n := fun hc => hn hc.symm
            simp [updateEntry, lookupDep, hn, hn2]
        · by_cases hn : k2 = n
          · subst hn
            simp [updateEntry, lookupDep, h2]
          · have hn2 : ¬ n = k2 := fun hc => hn hc.symm
            simp [updateEntry, lookupDep, h2, hn, hn2, ih]

/-- The empty dependency record. -/
def emptyDeps : NodeDeps := { depends_on := [], used_by := [] }

theorem lookupDep_depStep (m : List (String × NodeDeps)) (e : FlowEdge)
    (n : String) (he : e.etype = "input" ∨ e.etype = "output") :
    lookupDep (depStep m e) n =
      if n = e.dst ∨ n = e.src then
        some { depends_on := ((lookupDep m n).getD emptyDeps).depends_on ++
                 (if n = e.dst then [e.src] else [])
               used_by := ((lookupDep m n).getD emptyDeps).used_by ++
                 (if n = e.src then [e.dst] else []) }
      else lookupDep m n := by
  have hstep : depStep m e =
      updateEntry
        (updateEntry m e.dst
          (fun d => { d with depends_on := d.depends_on ++ [e.src] }))
        e.src (fun d => { d with used_by := d.used_by ++ [e.dst] }) := by
    rcases he with h | h <;> simp [depStep, h]
  rw [hstep, lookupDep_updateEntry, lookupDep_updateEntry]
  by_cases h2 : n = e.src
  · subst h2
    by_cases h1 : e.src = e.dst
    · simp only [← h1]
      simp [emptyDeps]
    · have h1b : ¬ e.dst = e.src := fun hc => h1 hc.symm
      simp [h1, h1b, emptyDeps]
  · by_cases h1 : n = e.dst
    · subst h1
      have h2c : ¬ e.src = e.dst := fun hc => h2 hc.symm
      simp [h2, h2c, emptyDeps, lookupDep_updateEntry]
    · simp [h1, h2, lookupDep_updateEntry]

theorem incomingSrcs_cons (e : FlowEdge) (rest : List FlowEdge) (n : String) :
    incomingSrcs (e :: rest) n =
      (if n = e.dst then [e.src] else []) ++ incomingSrcs rest n := by
  by_cases h : n = e.dst
  · subst h
    simp [incomingSrcs, List.filter_cons]
  · have h2 : ¬ e.dst = n := fun hc => h hc.symm
    simp [incomingSrcs, List.filter_cons, h, h2]

theorem outgoingDsts_cons (e : FlowEdge) (rest : List FlowEdge) (n : String) :
    outgoingDsts (e :: rest) n =
      (if n = e.src then [e.dst] else []) ++ outgoingDsts rest n := by
  by_cases h : n = e.src
  · subst h
    simp [outgoingDsts, List.filter_cons]
  · have h2 : ¬ e.src = n := fun hc => h hc.symm
    simp [outgoingDsts, List.filter_cons, h, h2]

theorem foldl_depStep_lookup (edges : List FlowEdge) :
    (∀ e ∈ edges, e.etype = "input" ∨ e.etype = "output") →
    ∀ (m : List (String × NodeDeps)) (n : String),
    lookupDep (edges.foldl depStep m) n =
      (match lookupDep m n with
       | some d =>
           some { depends_on := d.depends_on ++ incomingSrcs edges n
                  used_by := d.used_by ++ outgoingDsts edges n }
       | Option.none =>
           if edges.any (fun e => e.src == n || e.dst == n) then
             some { depends_on := incomingSrcs edges n
                    used_by := outgoingDsts edges n }
           else Option.none) := by
  induction edges with
  | nil =>
      intro _ m n
      cases h : lookupDep m n <;>
        simp [incomingSrcs, outgoingDsts, List.foldl, h]
  | cons e rest ih =>
      intro he m n
      have hee := he e (List.mem_cons_self _ _)
      have herest : ∀ e2 ∈ rest, e2.etype = "input" ∨ e2.etype = "output" :=
        fun e2 h2 => he e2 (List.mem_cons_of_mem _ h2)
      have hstep := lookupDep_depStep m e n hee
      rw [List.foldl_cons, ih herest (depStep m e) n, hstep,
        incomingSrcs_cons, outgoingDsts_cons]
      by_cases h1 : n = e.dst
      · by_cases h2 : n = e.src
        · cases hm : lookupDep m n <;> simp [h1, h2, hm, emptyDeps]
        · have h2b : ¬ e.src = n := fun hc => h2 hc.symm
          cases hm : lookupDep m n <;> simp [h1, h2, h2b, hm, emptyDeps]
      · have h1b : ¬ e.dst = n := fun hc => h1 hc.symm
        by_cases h2 : n = e.src
        · cases hm : lookupDep m n <;> simp [h1, h1b, h2, hm, emptyDeps]
        · have h2b : ¬ e.src = n := fun hc => h2 hc.symm
          cases hm : lookupDep m n <;>
            simp [h1, h1b, h2, h2b, hm, emptyDeps]

theorem updateEntry_keys (m : List (String × NodeDeps)) (k : String)
    (f : NodeDeps → NodeDeps) :
    (updateEntry m k f).map Prod.fst =
      if k ∈ m.map Prod.fst then m.map Prod.fst
      else m.map Prod.fst ++ [k] := by
  induction m with
  | nil => simp [updateEntry]
  | cons hd tl ih =>
      match hd with
      | (k2, d) =>
        by_cases h : k2 = k
        · subst h
          simp [updateEntry]
        · have h2 : ¬ k = k2 := fun hc => h hc.symm
          by_cases hmem : k ∈ tl.map Prod.fst <;>
            simp [updateEntry, h, h2, hmem, ih]

theorem updateEntry_keys_nodup (m : List (String × NodeDeps)) (k : String)
    (f : NodeDeps → NodeDeps) (h : (m.map Prod.fst).Nodup) :
    ((updateEntry m k f).map Prod.fst).Nodup := by
  rw [updateEntry_keys]
  by_cases hmem : k ∈ m.map Prod.fst
  · simpa [hmem] using h
  · simp [hmem, List.nodup_append, h]

theorem depStep_keys_nodup (m : List (String × NodeDeps)) (e : FlowEdge)
    (h : (m.map Prod.fst).Nodup) : ((depStep m e).map Prod.fst).Nodup := by
  by_cases h1 : e.etype = "input"
  · simp only [depStep, h1, if_pos]
    exact updateEntry_keys_nodup _ _ _ (updateEntry_keys_nodup _ _ _ h)
  · by_cases h2 : e.etype = "output"
    · simp only [depStep, h1, h2, if_neg, if_pos]
      exact updateEntry_keys_nodup _ _ _ (updateEntry_keys_nodup _ _ _ h)
    · simpa [depStep, h1, h2] using h

theorem buildDeps_keys_nodup (edges : List FlowEdge) :
    ((buildDeps edges).map Prod.fst).Nodup := by
  have hgen : ∀ (m : List (String × NodeDeps)), (m.map Prod.fst).Nodup →
      ((edges.foldl depStep m).map Prod.fst).Nodup := by
    induction edges with
    | nil => intro m hm; simpa using hm
    | cons e rest ih =>
        intro m hm
        exact ih (depStep m e) (depStep_keys_nodup m e hm)
  exact hgen [] (by simp)

theorem lookupDep_of_mem (m : List (String × NodeDeps))
    (hnd : (m.map Prod.fst).Nodup) (n : String) (d : NodeDeps) :
    (n, d) ∈ m ↔ lookupDep m n = some d := by
  induction m with
  | nil => simp [lookupDep]
  | cons hd tl ih =>
      match hd with
      | (k2, d2) =>
        have hnd2 : (tl.map Prod.fst).Nodup := (List.nodup_cons.mp hnd).2
        have hk2 : k2 ∉ tl.map Prod.fst := (List.nodup_cons.mp hnd).1
        by_cases h : k2 = n
        · subst h
          constructor
          · intro hmem
            rcases List.mem_cons.mp hmem with h2 | h2
            · injection h2 with _ h3
              simp [lookupDep, h3]
            · exfalso
              exact hk2 (List.mem_map.mpr ⟨(k2, d), h2, rfl⟩)
          · intro hl
            simp [lookupDep] at hl
            simp [hl]
        · constructor
          · intro hmem
            rcases List.mem_cons.mp hmem with h2 | h2
            · injection h2 with h3 _
              exact absurd h3.symm h
            · simp [lookupDep, h, (ih hnd2).mp h2]
          · intro hl
            simp [lookupDep, h] at hl
            exact List.mem_cons_of_mem _ ((ih hnd2).mpr hl)

theorem rootNodes_mem (m : List (String × NodeDeps))
    (hnd : (m.map Prod.fst).Nodup) (n : String) :
    n ∈ rootNodes m ↔
      ∃ d, lookupDep m n = some d ∧ d.depends_on = [] := by
  constructor
  · intro h
    rcases List.mem_map.mp h with ⟨⟨k, d⟩, hmem, hk⟩
    rcases List.mem_filter.mp hmem with ⟨hm2, hempty⟩
    subst hk
    refine ⟨d, (lookupDep_of_mem m hnd _ d).mp hm2, ?_⟩
    simpa using hempty
  · rintro ⟨d, hl, hdep⟩
    have hmem := (lookupDep_of_mem m hnd n d).mpr hl
    exact List.mem_map.mpr ⟨(n, d),
      List.mem_filter.mpr ⟨hmem, by simp [hdep]⟩, rfl⟩

theorem leafNodes_mem (m : List (String × NodeDeps))
    (hnd : (m.map Prod.fst).Nodup) (n : String) :
    n ∈ leafNodes m ↔
      ∃ d, lookupDep m n = some d ∧ d.used_by = [] := by
  constructor
  · intro h
    rcases List.mem_map.mp h with ⟨⟨k, d⟩, hmem, hk⟩
    rcases List.mem_filter.mp hmem with ⟨hm2, hempty⟩
    subst hk
    refine ⟨d, (lookupDep_of_mem m hnd _ d).mp hm2, ?_⟩
    simpa using hempty
  · rintro ⟨d, hl, hdep⟩
    have hmem := (lookupDep_of_mem m hnd n d).mpr hl
    exact List.mem_map.mpr ⟨(n, d),
      List.mem_filter.mpr ⟨hmem, by simp [hdep]⟩, rfl⟩

theorem concatMap_mem_src (f : α → List β) (l : List α) (b : β)
    (hb : b ∈ concatMap f l) : ∃ x ∈ l, b ∈ f x := by
  induction l with
  | nil => cases hb
  | cons y rest ih =>
      rcases List.mem_append.mp hb with h | h
      · exact ⟨y, List.mem_cons_self _ _, h⟩
      · rcases ih h with ⟨x, hx, hbx⟩
        exact ⟨x, List.mem_cons_of_mem _ hx, hbx⟩

theorem recipeEdges_types (name : String) (d : RecipeDef) :
    ∀ e ∈ recipeEdges name d, e.etype = "input" ∨ e.etype = "output" := by
  intro e he
  rcases List.mem_append.mp he with h | h
  · rcases List.mem_map.mp h with ⟨i, _, hi⟩
    subst hi
    exact Or.inl rfl
  · rcases List.mem_map.mp h with ⟨x, _, hx⟩
    subst hx
    exact Or.inr rfl

theorem flowEdges_types (o : FlowOracle) (recipes : List RecipeListing) :
    ∀ e ∈ flowEdges o recipes, e.etype = "input" ∨ e.etype = "output" := by
  intro e he
  rcases concatMap_mem_src _ _ _ he with ⟨r, _, her⟩
  revert her
  cases o.getRecipe r.name with
  | error _ => intro her; cases her
  | ok _ =>
      cases o.getDefinition r.name with
      | ok d => exact recipeEdges_types r.name d e
      | error _ => intro her; cases her

theorem flowNodes_ids (datasets : List DatasetListing)
    (recipes : List RecipeListing) :
    (flowNodes datasets recipes).map FlowNode.id =
      datasets.map DatasetListing.name ++ recipes.map RecipeListing.name := by
  simp only [flowNodes, List.map_append, List.map_map]
  rfl

theorem buildDeps_lookup_some (edges : List FlowEdge)
    (he : ∀ e ∈ edges, e.etype = "input" ∨ e.etype = "output")
    (n : String) (d : NodeDeps)
    (hld : lookupDep (buildDeps edges) n = some d) :
    d.depends_on = incomingSrcs edges n ∧ d.used_by = outgoingDsts edges n := by
  have hinv := foldl_depStep_lookup edges he [] n
  rw [buildDeps] at hld
  rw [hld] at hinv
  simp only [lookupDep] at hinv
  split at hinv
  · have h2 : d = { depends_on := incomingSrcs edges n
                    used_by := outgoingDsts edges n } :=
      Option.some_injective _ hinv
    rw [h2]
    exact ⟨rfl, rfl⟩
  · cases hinv

theorem buildDeps_lookup_isolated (edges : List FlowEdge)
    (he : ∀ e ∈ edges, e.etype = "input" ∨ e.etype = "output")
    (n : String) (hiso : ∀ e ∈ edges, e.src ≠ n ∧ e.dst ≠ n) :
    lookupDep (buildDeps edges) n = Option.none := by
  have hinv := foldl_depStep_lookup edges he [] n
  rw [buildDeps]
  rw [hinv]
  simp only [lookupDep]
  have hany : edges.any (fun e => e.src == n || e.dst == n) = false := by
    rw [List.any_eq_false]
    intro e hee
    rcases hiso e hee with ⟨h1, h2⟩
    simp [h1, h2]
  simp [hany]

/-! ## Claim theorems -/

/-- A modifications dict containing only `remove_triggers`. -/
def remTrigMods (is : List Int) : Modifications :=
  { description := Option.none
    tags := Option.none
    active := Option.none
    step_modifications := Option.none
    trigger_modifications := Option.none
    new_triggers := Option.none
    remove_triggers := some is }

/-- C2 (amended): for `clone_scenario` with `remove_triggers` a list of
pairwise-distinct non-negative indices, the descending-order deletion loop
leaves exactly the triggers whose original indices are not in the removal
list. -/
theorem clone_removeTriggers_descending (s : ScenarioSettings) (is : List Int)
    (h1 : is.Nodup) (h2 : ∀ i ∈ is, 0 ≤ i) :
    applySettingsMods (remTrigMods is) s =
      .ok { s with raw_triggers := specSurvivingTriggers is s.raw_triggers } := by
  simp [applySettingsMods, remTrigMods, bind, Except.bind, pure, Except.pure,
    removeTriggers_spec is s.raw_triggers h1 h2]

/-- Concrete settings used to exercise the trigger-removal theorems. -/
def c2WitnessSettings : ScenarioSettings :=
  { name := "S"
    stype := "step_based"
    active := .bool true
    raw_steps := []
    raw_triggers := [.str "t0", .str "t1", .str "t2", .str "t3"] }

/-- C2 witness: the spec example `remove_triggers=[2,0]` on four
triggers. -/
theorem clone_removeTriggers_descending_witness :
    ([2, 0] : List Int).Nodup ∧ (∀ i ∈ ([2, 0] : List Int), 0 ≤ i) ∧
    applySettingsMods (remTrigMods [2, 0]) c2WitnessSettings =
      .ok { c2WitnessSettings with
            raw_triggers :=
              specSurvivingTriggers [2, 0] c2WitnessSettings.raw_triggers } :=
  ⟨by decide, by decide,
   clone_removeTriggers_descending c2WitnessSettings [2, 0]
     (by decide) (by decide)⟩

/-- Concrete settings with three triggers for the duplicate-index
counterexample. -/
def c2CexSettings : ScenarioSettings :=
  { name := "S"
    stype := "step_based"
    active := .bool true
    raw_steps := []
    raw_triggers := [.str "t0", .str "t1", .str "t2"] }

/-- C2 counterexample: with the duplicated index list `[1, 1]` the loop
also deletes the trigger at original index 2, so the survivors are not
those whose original indices avoid the removal list. -/
theorem clone_removeTriggers_duplicate_cex :
    applySettingsMods (remTrigMods [1, 1]) c2CexSettings =
      .ok { c2CexSettings with raw_triggers := [.str "t0"] } ∧
    specSurvivingTriggers [1, 1] c2CexSettings.raw_triggers =
      [.str "t0", .str "t2"] ∧
    ([PyVal.str "t0"] : List PyVal) ≠ [PyVal.str "t0", PyVal.str "t2"] := by
  refine ⟨rfl, rfl, ?_⟩
  intro hc
  have h2 := congrArg List.length hc
  simp at h2

/-- C7: after the single scan, each mapped node has `depends_on` equal to the list
of sources of its incoming edges, its `used_by` the list of targets of its
outgoing edges, and the root/leaf lists are exactly the mapped nodes with
empty `depends_on`/`used_by`. -/
theorem flow_dependency_map (edges : List FlowEdge)
    (he : ∀ e ∈ edges, e.etype = "input" ∨ e.etype = "output") :
    (∀ n d, lookupDep (buildDeps edges) n = some d →
      d.depends_on = incomingSrcs edges n ∧
      d.used_by = outgoingDsts edges n) ∧
    (∀ n, n ∈ rootNodes (buildDeps edges) ↔
      ∃ d, lookupDep (buildDeps edges) n = some d ∧ d.depends_on = []) ∧
    (∀ n, n ∈ leafNodes (buildDeps edges) ↔
      ∃ d, lookupDep (buildDeps edges) n = some d ∧ d.used_by = []) :=
  ⟨fun n d h => buildDeps_lookup_some edges he n d h,
   fun n => rootNodes_mem _ (buildDeps_keys_nodup edges) n,
   fun n => leafNodes_mem _ (buildDeps_keys_nodup edges) n⟩

/-- A two-edge flow (`A --input--> r --output--> B`) for the C7 witness. -/
def c7Edges : List FlowEdge :=
  [{ src := "A", dst := "r", etype := "input" },
   { src := "r", dst := "B", etype := "output" }]

/-- C7 witness on the concrete two-edge flow. -/
theorem flow_dependency_map_witness :
    (({ depends_on := ["A"], used_by := ["B"] } : NodeDeps).depends_on =
        incomingSrcs c7Edges "r" ∧
     ({ depends_on := ["A"], used_by := ["B"] } : NodeDeps).used_by =
        outgoingDsts c7Edges "r") ∧
    "A" ∈ rootNodes (buildDeps c7Edges) ∧
    "B" ∈ leafNodes (buildDeps c7Edges) :=
  ⟨(flow_dependency_map c7Edges (by decide)).1 "r"
      { depends_on := ["A"], used_by := ["B"] } rfl,
   ((flow_dependency_map c7Edges (by decide)).2.1 "A").mpr
     ⟨{ depends_on := [], used_by := ["r"] }, rfl, rfl⟩,
   ((flow_dependency_map c7Edges (by decide)).2.2 "B").mpr
     ⟨{ depends_on := ["r"], used_by := [] }, rfl, rfl⟩⟩

/-- C10: a listed dataset or recipe with no incident edges appears in
`flow.nodes` but is absent from the dependency map, hence classified
neither as a root nor as a leaf. -/
theorem flow_isolated_node (o : FlowOracle) (pk n : String)
    (datasets : List DatasetListing) (recipes : List RecipeListing)
    (h1 : o.getProject = .ok ()) (h2 : o.listDatasets = .ok datasets)
    (h3 : o.listRecipes = .ok recipes)
    (hn : n ∈ (flowNodes datasets recipes).map FlowNode.id)
    (hiso : ∀ e ∈ flowEdges o recipes, e.src ≠ n ∧ e.dst ≠ n) :
    (get_project_flow o pk).nodes = some (flowNodes datasets recipes) ∧
    n ∈ (flowNodes datasets recipes).map FlowNode.id ∧
    lookupDep (buildDeps (flowEdges o recipes)) n = Option.none ∧
    (get_project_flow o pk).root_nodes =
      some (rootNodes (buildDeps (flowEdges o recipes))) ∧
    n ∉ rootNodes (buildDeps (flowEdges o recipes)) ∧
    (get_project_flow o pk).leaf_nodes =
      some (leafNodes (buildDeps (flowEdges o recipes))) ∧
    n ∉ leafNodes (buildDeps (flowEdges o recipes)) := by
  have htypes := flowEdges_types o recipes
  have hnone := buildDeps_lookup_isolated _ htypes n hiso
  have hnd := buildDeps_keys_nodup (flowEdges o recipes)
  refine ⟨?_, hn, hnone, ?_, ?_, ?_, ?_⟩
  · simp [get_project_flow, h1, h2, h3]
  · simp [get_project_flow, h1, h2, h3]
  · intro hc
    rcases (rootNodes_mem _ hnd n).mp hc with ⟨d, hd, _⟩
    rw [hnone] at hd
    cases hd
  · simp [get_project_flow, h1, h2, h3]
  · intro hc
    rcases (leafNodes_mem _ hnd n).mp hc with ⟨d, hd, _⟩
    rw [hnone] at hd
    cases hd

/-- A one-dataset, zero-recipe project for the C10 witness. -/
def c10Oracle : FlowOracle :=
  { getProject := .ok ()
    listDatasets := .ok [{ name := "X", dtype := "PostgreSQL", tags := [] }]
    listRecipes := .ok []
    getRecipe := fun _ => .ok ()
    getDefinition := fun _ => .error "no such recipe" }

/-- C10 witness: the isolated dataset `X`. -/
theorem flow_isolated_node_witness :
    (get_project_flow c10Oracle "P").nodes =
      some (flowNodes [{ name := "X", dtype := "PostgreSQL", tags := [] }] []) ∧
    "X" ∈ (flowNodes [{ name := "X", dtype := "PostgreSQL", tags := [] }]
      ([] : List RecipeListing)).map FlowNode.id ∧
    lookupDep (buildDeps (flowEdges c10Oracle [])) "X" = Option.none ∧
    (get_project_flow c10Oracle "P").root_nodes =
      some (rootNodes (buildDeps (flowEdges c10Oracle []))) ∧
    "X" ∉ rootNodes (buildDeps (flowEdges c10Oracle [])) ∧
    (get_project_flow c10Oracle "P").leaf_nodes =
      some (leafNodes (buildDeps (flowEdges c10Oracle []))) ∧
    "X" ∉ leafNodes (buildDeps (flowEdges c10Oracle [])) :=
  flow_isolated_node c10Oracle "P" "X"
    [{ name := "X", dtype := "PostgreSQL", tags := [] }] [] rfl rfl rfl
    (by decide)
    (by intro e he; simp [flowEdges, concatMap] at he)

/-- C9: `get_client` is a lazy process-wide singleton: a successful call
caches the instance, a repeated call returns the identical instance with no
further `_create_client` invocation, and at most one creation happens per
call. -/
theorem get_client_lazy_singleton (create : Nat → Except String Nat)
    (s s1 : ClientState) (c : Nat)
    (h : get_client create s = (.ok c, s1)) :
    get_client create s1 = (.ok c, s1) ∧
    s1.clientInstance = some c ∧
    s1.createCalls ≤ s.createCalls + 1 ∧
    (∀ c0, s.clientInstance = some c0 → c = c0 ∧ s1 = s) ∧
    (s.clientInstance = Option.none →
      s1.createCalls = s.createCalls + 1) := by
  obtain ⟨inst, calls⟩ := s
  cases inst with
  | some c0 =>
      have hdef : get_client create ⟨some c0, calls⟩ =
          (.ok c0, ⟨some c0, calls⟩) := rfl
      rw [hdef] at h
      injection h with hfst hsnd
      injection hfst with hc
      subst hc
      subst hsnd
      refine ⟨rfl, rfl, by omega, ?_, ?_⟩
      · intro c2 hc2
        have h4 : some c0 = some c2 := hc2
        injection h4 with h5
        exact ⟨h5, rfl⟩
      · intro hc2
        have h4 : (Option.none : Option Nat) = Option.none := rfl
        exact absurd hc2 (by simp)
  | none =>
      cases hcr : create calls with
      | ok c2 =>
          have hdef : get_client create ⟨Option.none, calls⟩ =
              (.ok c2, ⟨some c2, calls + 1⟩) := by
            simp [get_client, hcr]
          rw [hdef] at h
          injection h with hfst hsnd
          injection hfst with hc
          subst hc
          subst hsnd
          exact ⟨rfl, rfl, Nat.le_refl _, fun c0 hc0 => by simp at hc0,
            fun _ => rfl⟩
      | error e =>
          have hdef : get_client create ⟨Option.none, calls⟩ =
              (.error e, ⟨Option.none, calls + 1⟩) := by
            simp [get_client, hcr]
          rw [hdef] at h
          injection h with hfst hsnd
          cases hfst

/-- A creating oracle for the C9 witness. -/
def c9Create : Nat → Except String Nat := fun k => .ok (k + 100)

/-- C9 witness: first call creates client `100`, second call returns it
unchanged. -/
theorem get_client_lazy_singleton_witness :
    get_client c9Create { clientInstance := Option.none, createCalls := 0 } =
      (.ok 100, { clientInstance := some 100, createCalls := 1 }) ∧
    (get_client c9Create { clientInstance := some 100, createCalls := 1 } =
      (.ok 100, { clientInstance := some 100, createCalls := 1 }) ∧
     ({ clientInstance := some 100, createCalls := 1 } :
        ClientState).clientInstance = some 100 ∧
     ({ clientInstance := some 100, createCalls := 1 } :
        ClientState).createCalls ≤
       ({ clientInstance := Option.none, createCalls := 0 } :
        ClientState).createCalls + 1 ∧
     (∀ c0, ({ clientInstance := Option.none, createCalls := 0 } :
        ClientState).clientInstance = some c0 →
        100 = c0 ∧ ({ clientInstance := some 100, createCalls := 1 } :
          ClientState) =
          { clientInstance := Option.none, createCalls := 0 }) ∧
     (({ clientInstance := Option.none, createCalls := 0 } :
        ClientState).clientInstance = Option.none →
       ({ clientInstance := some 100, createCalls := 1 } :
        ClientState).createCalls =
       ({ clientInstance := Option.none, createCalls := 0 } :
        ClientState).createCalls + 1)) :=
  ⟨rfl, get_client_lazy_singleton c9Create
    { clientInstance := Option.none, createCalls := 0 }
    { clientInstance := some 100, createCalls := 1 } 100 rfl⟩

/-- C8: when no `customPostWriteStatements` are configured,
`get_dataset_post_write_statements` returns `status == "ok"` with an empty
list and `has_post_write` false. -/
theorem post_write_empty_ok (o : PostWriteOracle) (pk dn : String)
    (raw : PyVal) (pkvs : List (String × PyVal))
    (h1 : o.getProject = .ok ()) (h2 : o.getDataset = .ok ())
    (h3 : o.getSettings = .ok raw)
    (h4 : pyGetD raw "params" (.dict []) = .ok (.dict pkvs))
    (h5 : pyLookup pkvs "customPostWriteStatements" = Option.none) :
    (get_dataset_post_write_statements o pk dn).status = "ok" ∧
    (get_dataset_post_write_statements o pk dn).post_write_statements =
      some (.list []) ∧
    (get_dataset_post_write_statements o pk dn).has_post_write =
      some false := by
  cases h6 : pyLookup pkvs "customPreWriteStatements" <;>
    (simp only [get_dataset_post_write_statements, postWriteBody, h1, h2, h3,
      bind, Except.bind, pure, Except.pure, h4]
     simp [pyGetD, h5, h6, pyTruthy])

/-- A dataset-settings oracle with no post-write statements for the C8
witness. -/
def c8Oracle : PostWriteOracle :=
  { getProject := .ok ()
    getDataset := .ok ()
    getSettings := .ok (.dict [("params", .dict [("mode", .str "table")])]) }

/-- C8 witness on concrete settings without the key. -/
theorem post_write_empty_ok_witness :
    (get_dataset_post_write_statements c8Oracle "P" "D").status = "ok" ∧
    (get_dataset_post_write_statements c8Oracle "P" "D").post_write_statements =
      some (.list []) ∧
    (get_dataset_post_write_statements c8Oracle "P" "D").has_post_write =
      some false :=
  post_write_empty_ok c8Oracle "P" "D"
    (.dict [("params", .dict [("mode", .str "table")])])
    [("mode", .str "table")] rfl rfl rfl rfl rfl

/-- C5: any `dataset_type` whose lowercase form is outside the dispatch set
takes the generic `project.create_dataset` path and succeeds (no
unrecognized-type error), with the generic call carrying the given type. -/
theorem create_dataset_generic_path (o : CreateOracle)
    (pk dn dt : String) (params : CreateParams)
    (hdt : pyLower dt ∉ ["managed", "filesystem", "sql", "s3", "uploaded"])
    (hfmt : params.format_type = Option.none)
    (h1 : o.getProject = .ok ()) (dsId : String)
    (h2 : o.createDatasetGeneric = .ok dsId) :
    (create_dataset o pk dn dt (some params)).1.status = "ok" ∧
    (create_dataset o pk dn dt (some params)).1.dataset_id = some dsId ∧
    (create_dataset o pk dn dt (some params)).2 =
      [Call.getProject pk, Call.createDatasetGeneric dn dt] := by
  have hm : ¬ pyLower dt = "managed" := fun hc => hdt (by simp [hc])
  have hf : ¬ pyLower dt = "filesystem" := fun hc => hdt (by simp [hc])
  have hq : ¬ pyLower dt = "sql" := fun hc => hdt (by simp [hc])
  have hs3 : ¬ pyLower dt = "s3" := fun hc => hdt (by simp [hc])
  have hu : ¬ pyLower dt = "uploaded" := fun hc => hdt (by simp [hc])
  simp [create_dataset, createDispatch, h1, h2, hm, hf, hq, hs3, hu, hfmt,
    pyTruthyStr]

/-- An all-success oracle for the C5 witness. -/
def c5Oracle : CreateOracle :=
  { getProject := .ok ()
    newManagedDataset := .ok ()
    builderCreate := .ok "id0"
    createFilesystemDataset := .ok "id1"
    createSqlTableDataset := .ok "id2"
    createS3Dataset := .ok "id3"
    createUploadDataset := .ok "id4"
    createDatasetGeneric := .ok "id5"
    dsGetSettings := .ok ()
    settingsSave := .ok () }

/-- C5 witness: `dataset_type = "hdfs"` goes through the generic path. -/
theorem create_dataset_generic_path_witness :
    pyLower "hdfs" ∉
      ["managed", "filesystem", "sql", "s3", "uploaded"] ∧
    (create_dataset c5Oracle "P" "D" "hdfs"
      (some CreateParams.empty)).1.status = "ok" ∧
    (create_dataset c5Oracle "P" "D" "hdfs"
      (some CreateParams.empty)).1.dataset_id = some "id5" ∧
    (create_dataset c5Oracle "P" "D" "hdfs"
      (some CreateParams.empty)).2 =
      [Call.getProject "P", Call.createDatasetGeneric "D" "hdfs"] :=
  ⟨by decide,
   create_dataset_generic_path c5Oracle "P" "D" "hdfs" CreateParams.empty
     (by decide) rfl rfl "id5" rfl⟩

/-- C3 (amended): a non-empty unrecognized mode makes `build_dataset` and
`run_recipe` return the invalid-mode error before the build/run call is
issued (no job-submission call appears in the trace) — but after the
project and dataset/recipe handle calls, which do reach the vendor
client. -/
theorem invalid_mode_rejected_before_build (ob : BuildOracle)
    (orr : RunOracle) (pk dn rn : String) (m : String)
    (partition : Option String) (hm1 : m ≠ "") (hm2 : m ∉ validModes) :
    (∀ c ∈ (build_dataset ob pk dn (some m) partition).2,
      c.isJobSubmission = false) ∧
    (∀ c ∈ (run_recipe orr pk rn (some m)).2, c.isJobSubmission = false) ∧
    (ob.getProject = .ok () → ob.getDataset = .ok () →
      (build_dataset ob pk dn (some m) partition).1 =
        invalidBuildModeResult ∧
      (build_dataset ob pk dn (some m) partition).2 =
        [Call.getProject pk, Call.getDataset dn]) ∧
    (orr.getProject = .ok () → orr.getRecipe = .ok () →
      (run_recipe orr pk rn (some m)).1 = invalidRunModeResult ∧
      (run_recipe orr pk rn (some m)).2 =
        [Call.getProject pk, Call.getRecipe rn]) := by
  have hpt : pyTruthyStr (some m) = true := by
    simp [pyTruthyStr, hm1]
  refine ⟨?_, ?_, ?_, ?_⟩
  · cases hgp : ob.getProject with
    | error e => simp [build_dataset, hgp, Call.isJobSubmission]
    | ok u =>
        cases u
        cases hgd : ob.getDataset with
        | error e => simp [build_dataset, hgp, hgd, Call.isJobSubmission]
        | ok u2 =>
            cases u2
            simp [build_dataset, hgp, hgd, hpt, hm2, Call.isJobSubmission]
  · cases hgp : orr.getProject with
    | error e => simp [run_recipe, hgp, Call.isJobSubmission]
    | ok u =>
        cases u
        cases hgd : orr.getRecipe with
        | error e => simp [run_recipe, hgp, hgd, Call.isJobSubmission]
        | ok u2 =>
            cases u2
            simp [run_recipe, hgp, hgd, hpt, hm2, Call.isJobSubmission]
  · intro hgp hgd
    constructor
    · simp [build_dataset, hgp, hgd, hpt, hm2]
    · simp [build_dataset, hgp, hgd, hpt, hm2]
  · intro hgp hgd
    constructor
    · simp [run_recipe, hgp, hgd, hpt, hm2]
    · simp [run_recipe, hgp, hgd, hpt, hm2]

/-- An all-success oracle for the C3 counterexample and witness. -/
def c3BuildOracle : BuildOracle :=
  { getProject := .ok ()
    getDataset := .ok ()
    build := .ok "j1"
    waitForCompletion := .ok
      { outcome := "SUCCESS", start_time := "t0", end_time := "t1" } }

/-- An all-success recipe oracle for the C3 witness. -/
def c3RunOracle : RunOracle :=
  { getProject := .ok ()
    getRecipe := .ok ()
    run := .ok "j2"
    waitForCompletion := .ok
      { outcome := "SUCCESS", start_time := "t0", end_time := "t1" } }

/-- C3 witness: mode `"FOO"` on concrete oracles. -/
theorem invalid_mode_rejected_before_build_witness :
    ("FOO" : String) ≠ "" ∧ ("FOO" : String) ∉ validModes ∧
    ((c3BuildOracle.getProject = .ok () → c3BuildOracle.getDataset = .ok () →
      (build_dataset c3BuildOracle "P" "D" (some "FOO")
        Option.none).1 = invalidBuildModeResult ∧
      (build_dataset c3BuildOracle "P" "D" (some "FOO") Option.none).2 =
        [Call.getProject "P", Call.getDataset "D"])) :=
  ⟨by decide, by decide,
   (invalid_mode_rejected_before_build c3BuildOracle c3RunOracle "P" "D" "R"
     "FOO" Option.none (by decide) (by decide)).2.2.1⟩

/-- C3 counterexample: with an invalid mode the tool still calls
`get_project` and `get_dataset` on the vendor client before rejecting, so
the rejection does not happen before any client call. -/
theorem invalid_mode_client_calls_cex :
    (build_dataset c3BuildOracle "P" "D" (some "FOO") Option.none).2 =
      [Call.getProject "P", Call.getDataset "D"] ∧
    (build_dataset c3BuildOracle "P" "D" (some "FOO") Option.none).2 ≠ [] ∧
    (build_dataset c3BuildOracle "P" "D" (some "FOO")
      Option.none).1.status = "error" := by
  refine ⟨rfl, by decide, rfl⟩

/-- C6: when the regex fails to compile, `search_project_objects` returns
`status == "ok"` and the result lists are exactly the listings kept by the
lowercase-substring fallback over name, description and tags. -/
theorem search_invalid_regex_fallback (rc : String → Option (String → Bool))
    (o : SearchOracle) (pk term : String)
    (lds lrs : List ObjListing) (lss : List ScenListing)
    (hrc : rc term = Option.none)
    (h1 : o.getProject = .ok ()) (h2 : o.listDatasets = .ok lds)
    (h3 : o.listRecipes = .ok lrs) (h4 : o.listScenarios = .ok lss) :
    (search_project_objects rc o pk term Option.none).status = "ok" ∧
    (search_project_objects rc o pk term Option.none).datasets =
      some ((lds.filter (objKeep Option.none term)).map (mkObjMatch term)) ∧
    (search_project_objects rc o pk term Option.none).recipes =
      some ((lrs.filter (objKeep Option.none term)).map (mkObjMatch term)) ∧
    (search_project_objects rc o pk term Option.none).scenarios =
      some ((lss.filter (scenKeep Option.none term)).map (mkScenMatch term)) ∧
    (∀ d : ObjListing, objKeep Option.none term d =
      (pyIn (pyLower term) (pyLower d.name) ||
       pyIn (pyLower term) (pyLower (d.description.getD "")) ||
       (d.tags.getD []).any (fun tg => pyIn (pyLower term) (pyLower tg)))) := by
  refine ⟨?_, ?_, ?_, ?_, fun d => rfl⟩ <;>
    simp [search_project_objects, searchBody, hrc, h1, h2, h3, h4,
      bind, Except.bind, pure, Except.pure, collectMatches_eq,
      List.contains]

/-- One dataset listing that matches `"sales"` case-insensitively and one
that does not, for the C6 witness. -/
def c6Oracle : SearchOracle :=
  { getProject := .ok ()
    listDatasets := .ok
      [{ name := "SALES_2024", otype := "PostgreSQL",
         description := Option.none, tags := Option.none },
       { name := "weather", otype := "PostgreSQL",
         description := Option.none, tags := Option.none }]
    listRecipes := .ok []
    listScenarios := .ok [] }

/-- A regex compiler that rejects every pattern (models `re.error`). -/
def c6NoCompile : String → Option (String → Bool) := fun _ => Option.none

/-- C6 witness: the term `"sales("` (an invalid regex) falls back to
substring matching. -/
theorem search_invalid_regex_fallback_witness :
    (search_project_objects c6NoCompile c6Oracle "P" "sales"
      Option.none).status = "ok" ∧
    (search_project_objects c6NoCompile c6Oracle "P" "sales"
      Option.none).datasets =
      some (((([{ name := "SALES_2024", otype := "PostgreSQL",
                  description := Option.none, tags := Option.none },
                { name := "weather", otype := "PostgreSQL",
                  description := Option.none, tags := Option.none }] :
        List ObjListing).filter (objKeep Option.none "sales")).map
          (mkObjMatch "sales"))) :=
  ⟨(search_invalid_regex_fallback c6NoCompile c6Oracle "P" "sales" _ [] []
      rfl rfl rfl rfl rfl).1,
   (search_invalid_regex_fallback c6NoCompile c6Oracle "P" "sales" _ [] []
      rfl rfl rfl rfl rfl).2.1⟩

/-- C1 (amended): `build_dataset` and `get_scenario_logs` always return a
result dictionary whose status is `"ok"` or `"error"` with a non-empty
message; any exception reaching the top level surfaces as the error
envelope (shown for a failing `get_project`). -/
theorem tool_error_envelope (ob : BuildOracle) (ol : LogsOracle)
    (pk dn sid : String) (mode partition rid : Option String) :
    ((build_dataset ob pk dn mode partition).1.status = "ok" ∨
     ((build_dataset ob pk dn mode partition).1.status = "error" ∧
      (build_dataset ob pk dn mode partition).1.message ≠ "")) ∧
    ((get_scenario_logs ol pk sid rid).status = "ok" ∨
     ((get_scenario_logs ol pk sid rid).status = "error" ∧
      ∀ msg2, (get_scenario_logs ol pk sid rid).message = some msg2 →
        msg2 ≠ "")) ∧
    (∀ e, ob.getProject = .error e →
      (build_dataset ob pk dn mode partition).1.status = "error" ∧
      (build_dataset ob pk dn mode partition).1.message ≠ "") := by
  have hbuild : ∀ e2 : String,
      (buildFail dn e2).status = "error" ∧ (buildFail dn e2).message ≠ "" :=
    fun e2 => ⟨rfl,
      msg4_ne "Failed to build dataset \x27" dn "\x27: " e2 (by decide)⟩
  have hlogsfail : ∀ e2 : String, (logsFail e2).status = "error" ∧
      (∀ msg2, (logsFail e2).message = some msg2 → msg2 ≠ "") :=
    fun e2 => ⟨rfl, fun msg2 h => by
      injection h with h2
      rw [← h2]
      exact strPrefix_ne_empty "Failed to get scenario logs: " e2
        (by decide)⟩
  have hbd : ∀ P : BuildResult → Prop,
      (∀ e2, P (buildFail dn e2)) →
      P invalidBuildModeResult →
      (∀ r, r.status = "ok" → P r) →
      P (build_dataset ob pk dn mode partition).1 := by
    intro P hfail hinv hok
    cases hgp : ob.getProject with
    | error e => simpa [build_dataset, hgp] using hfail e
    | ok u =>
      cases u
      cases hgd : ob.getDataset with
      | error e => simpa [build_dataset, hgp, hgd] using hfail e
      | ok u2 =>
        cases u2
        simp only [build_dataset, hgp, hgd]
        split
        · exact hinv
        · cases hb : ob.build with
          | error e => simpa using hfail e
          | ok jobId =>
            cases hw : ob.waitForCompletion with
            | error e => simpa using hfail e
            | ok jr => exact hok _ rfl
  refine ⟨?_, ?_, ?_⟩
  · exact hbd
      (fun r => r.status = "ok" ∨ (r.status = "error" ∧ r.message ≠ ""))
      (fun e2 => Or.inr (hbuild e2))
      (Or.inr ⟨rfl, by decide⟩)
      (fun r hr => Or.inl hr)
  · cases hgp : ol.getProject with
    | error e => rw [show get_scenario_logs ol pk sid rid = logsFail e by
        simp [get_scenario_logs, hgp]]
                 exact Or.inr (hlogsfail e)
    | ok u =>
      cases u
      cases hgs : ol.getScenario with
      | error e => rw [show get_scenario_logs ol pk sid rid = logsFail e by
          simp [get_scenario_logs, hgp, hgs]]
                   exact Or.inr (hlogsfail e)
      | ok u2 =>
        cases u2
        cases hgr : ol.getLastRuns with
        | error e => rw [show get_scenario_logs ol pk sid rid = logsFail e by
            simp [get_scenario_logs, hgp, hgs, hgr]]
                     exact Or.inr (hlogsfail e)
        | ok runs =>
          cases runs with
          | nil =>
              left
              simp [get_scenario_logs, hgp, hgs, hgr]
          | cons r0 rest =>
              cases hpt : pyTruthyStr rid with
              | false =>
                  left
                  simp [get_scenario_logs, hgp, hgs, hgr, hpt, logsAssemble]
              | true =>
                  cases hfind : (r0 :: rest).find?
                      (fun r => r.runId == rid) with
                  | none =>
                      right
                      constructor
                      · simp [get_scenario_logs, hgp, hgs, hgr, hpt, hfind]
                      · intro msg2 hmsg
                        simp [get_scenario_logs, hgp, hgs, hgr, hpt,
                          hfind] at hmsg
                        rw [← hmsg]
                        exact msg3_ne "Run ID \x27" (rid.getD "")
                          "\x27 not found" (by decide)
                  | some target =>
                      left
                      simp [get_scenario_logs, hgp, hgs, hgr, hpt, hfind,
                        logsAssemble]
  · intro e hgp
    have heq : (build_dataset ob pk dn mode partition).1 = buildFail dn e :=
      by simp [build_dataset, hgp]
    rw [heq]
    exact hbuild e

/-- A build oracle whose `get_project` raises, for the C1 witness. -/
def c1BuildOracle : BuildOracle :=
  { getProject := .error "connection refused"
    getDataset := .ok ()
    build := .ok "j1"
    waitForCompletion := .ok
      { outcome := "SUCCESS", start_time := "t0", end_time := "t1" } }

/-- A logs oracle for the C1 witness. -/
def c1LogsOracle : LogsOracle :=
  { getProject := .ok ()
    getScenario := .ok ()
    getLastRuns := .ok []
    getLog := fun _ => .ok Option.none
    getStepRuns := fun _ => .ok []
    stepGetLog := fun _ => .ok Option.none
    getJobs := fun _ => .ok []
    jobGetLog := fun _ => .ok Option.none }

/-- C1 witness: a raised `get_project` surfaces as the non-empty error
envelope of `build_dataset`. -/
theorem tool_error_envelope_witness :
    (build_dataset c1BuildOracle "P" "D" Option.none
      Option.none).1.status = "error" ∧
    (build_dataset c1BuildOracle "P" "D" Option.none
      Option.none).1.message ≠ "" :=
  (tool_error_envelope c1BuildOracle c1LogsOracle "P" "D" "S" Option.none
    Option.none Option.none).2.2 "connection refused" rfl

/-- The run whose main log raises, for the C1 counterexample. -/
def c1CexRun : ScenarioRun :=
  { runId := some "r1"
    start_time := "t0"
    end_time := "t1"
    outcome := "SUCCESS"
    duration := "5"
    trigger_type := Option.none }

/-- A logs oracle whose `get_log` raises, for the C1 counterexample. -/
def c1CexLogsOracle : LogsOracle :=
  { getProject := .ok ()
    getScenario := .ok ()
    getLastRuns := .ok [c1CexRun]
    getLog := fun _ => .error "boom"
    getStepRuns := fun _ => .ok []
    stepGetLog := fun _ => .ok Option.none
    getJobs := fun _ => .ok []
    jobGetLog := fun _ => .ok Option.none }

/-- C1 counterexample: a vendor-client call (`target_run.get_log()`) raises
during `get_scenario_logs`, yet the tool returns `status == "ok"` with the
exception downgraded to an embedded log entry — not `status == "error"`. -/
theorem tool_error_envelope_inner_cex :
    c1CexLogsOracle.getLog c1CexRun = .error "boom" ∧
    (get_scenario_logs c1CexLogsOracle "P" "S" Option.none).status = "ok" ∧
    (get_scenario_logs c1CexLogsOracle "P" "S" Option.none).logs =
      some [basicEntry "error" "Could not retrieve scenario log: boom"
        "t0"] :=
  ⟨rfl, rfl, rfl⟩

/-- C4 (amended): `batch_update_objects` (all three branches) and
`duplicate_project_structure` accumulate per-item errors and keep
processing every listed item, returning `status == "ok"` with the embedded
lists; each item contributes independently of the others
(`clone_scenario`, by contrast, has no per-item accumulation — see the
counterexample). -/
theorem batch_dup_accumulate_errors :
    (∀ (rc : String → Option (String → Bool)) (o : BatchOracle)
       (pk pattern : String) (u : BatchUpdates) (lds : List BatchListing),
      o.getProject = .ok () → o.listDatasets = .ok lds →
      batch_update_objects rc o pk "datasets" pattern u =
        batchOk pk "datasets" pattern u
          (concatMap (fun d => (batchItemDs o u (rc pattern) pattern d).1) lds)
          (concatMap (fun d => (batchItemDs o u (rc pattern) pattern d).2)
            lds)) ∧
    (∀ (rc : String → Option (String → Bool)) (o : BatchOracle)
       (pk pattern : String) (u : BatchUpdates) (lrs : List BatchListing),
      o.getProject = .ok () → o.listRecipes = .ok lrs →
      batch_update_objects rc o pk "recipes" pattern u =
        batchOk pk "recipes" pattern u
          (concatMap (fun r => (batchItemRc o u (rc pattern) pattern r).1) lrs)
          (concatMap (fun r => (batchItemRc o u (rc pattern) pattern r).2)
            lrs)) ∧
    (∀ (rc : String → Option (String → Bool)) (o : BatchOracle)
       (pk pattern : String) (u : BatchUpdates)
       (lss : List BatchScenListing),
      o.getProject = .ok () → o.listScenarios = .ok lss →
      batch_update_objects rc o pk "scenarios" pattern u =
        batchOk pk "scenarios" pattern u
          (concatMap (fun s => (batchItemSc o u (rc pattern) pattern s).1) lss)
          (concatMap (fun s => (batchItemSc o u (rc pattern) pattern s).2)
            lss)) ∧
    (∀ (o : DupOracle) (spk tpk : String) (inc : Bool)
       (ds : List DupDsListing) (rs : List DupRcListing)
       (ss : List DupScListing),
      o.getClient = .ok () → o.getSourceProject = .ok () →
      o.createProject = .ok () → o.listDatasets = .ok ds →
      o.listRecipes = .ok rs → o.listScenarios = .ok ss →
      (duplicate_project_structure o spk tpk inc).status = "ok" ∧
      (duplicate_project_structure o spk tpk inc).copied_objects = some
        { datasets := concatMap (fun d => (dupDsOne o inc d).1) ds
          recipes := concatMap (fun r => (dupRcOne o r).1) rs
          scenarios := concatMap (fun s => (dupScOne o s).1) ss
          varsCopied := (dupVars o).1
          errors := (dupVars o).2 ++
            concatMap (fun d => (dupDsOne o inc d).2) ds ++
            concatMap (fun r => (dupRcOne o r).2) rs ++
            concatMap (fun s => (dupScOne o s).2) ss }) := by
  have hds : pyLower "datasets" = "datasets" := rfl
  have hrc2 : pyLower "recipes" = "recipes" := rfl
  have hsc : pyLower "scenarios" = "scenarios" := rfl
  refine ⟨?_, ?_, ?_, ?_⟩
  · intro rc o pk pattern u lds h1 h2
    simp [batch_update_objects, h1, h2, hds, accumLoop_eq]
  · intro rc o pk pattern u lrs h1 h2
    simp [batch_update_objects, h1, h2, hrc2, accumLoop_eq,
      (by decide : ("recipes" : String) ≠ "datasets")]
  · intro rc o pk pattern u lss h1 h2
    simp [batch_update_objects, h1, h2, hsc, accumLoop_eq,
      (by decide : ("scenarios" : String) ≠ "datasets"),
      (by decide : ("scenarios" : String) ≠ "recipes")]
  · intro o spk tpk inc ds rs ss hc hsp hcp hld hlr hls
    constructor
    · simp [duplicate_project_structure, hc, hsp, hcp, dupMain, hld, hlr,
        hls, accumLoop_eq]
    · simp [duplicate_project_structure, hc, hsp, hcp, dupMain, hld, hlr,
        hls, accumLoop_eq]

/-- A regex compiler that always falls back to substring matching, for the
C4 witness. -/
def c4Rc : String → Option (String → Bool) := fun _ => Option.none

/-- A batch oracle where updating dataset `bad_ds` raises and `good_ds`
succeeds. -/
def c4BatchOracle : BatchOracle :=
  { getProject := .ok ()
    listDatasets := .ok [{ name := "bad_ds", otype := "PostgreSQL" },
                         { name := "good_ds", otype := "PostgreSQL" }]
    listRecipes := .ok []
    listScenarios := .ok []
    dsGet := fun n => if n = "bad_ds" then .error "boom" else .ok ()
    dsGetMetadata := fun _ => .ok (.dict [])
    dsSetMetadata := fun _ _ => .ok ()
    dsGetSettingsRaw := fun _ => .ok (.dict [])
    dsSettingsSave := fun _ => .ok ()
    rcGet := fun _ => .ok ()
    rcGetSettings := fun _ => .ok ()
    rcGetMetadata := fun _ => .ok (.dict [])
    rcSetMetadata := fun _ _ => .ok ()
    rcSetCode := fun _ _ => .ok ()
    rcSetParams := fun _ _ => .ok ()
    rcSettingsSave := fun _ => .ok ()
    scGet := fun _ => .ok ()
    scGetMetadata := fun _ => .ok (.dict [])
    scSetMetadata := fun _ _ => .ok ()
    scGetSettings := fun _ => .ok ()
    scSettingsSave := fun _ => .ok () }

/-- A description-only update for the C4 witness. -/
def c4Updates : BatchUpdates :=
  { description := some "d"
    tags := Option.none
    settings := Option.none
    code := Option.none
    recipe_params := Option.none
    active := Option.none }

/-- A duplication oracle where copying dataset `bad` raises and `ok1`
succeeds. -/
def c4DupOracle : DupOracle :=
  { getClient := .ok ()
    getSourceProject := .ok ()
    createProject := .ok ()
    getTargetProject := .ok ()
    getVariables := .ok (["v1"], [])
    setVariables := .ok ()
    listDatasets := .ok [{ name := "bad", dtype := "managed" },
                         { name := "ok1", dtype := "managed" }]
    dsGet := fun _ => .ok ()
    dsGetSettings := fun n => if n = "bad" then .error "ds boom" else .ok ()
    dsGetSchema := fun _ => .ok ()
    tgtCreateDataset := fun _ => .ok ()
    tgtSetSchema := fun _ => .ok ()
    dsGetDataframe := fun _ => .ok ()
    tgtWriteWithSchema := fun _ => .ok ()
    listRecipes := .ok []
    rcGet := fun _ => .ok ()
    rcGetSettings := fun _ => .ok ()
    rcGetDefinition := fun _ => .ok { inputs := [], outputs := [] }
    tgtNewRecipe := fun _ => .ok ()
    withInput := fun _ _ => .ok ()
    withOutput := fun _ _ => .ok ()
    builderBuild := fun _ => .ok ()
    tgtRcGetSettings := fun _ => .ok ()
    rcGetCode := fun _ => .ok "code"
    tgtRcSetCode := fun _ => .ok ()
    rcGetParams := fun _ => .ok (.dict [])
    tgtRcSetParams := fun _ => .ok ()
    tgtRcSave := fun _ => .ok ()
    listScenarios := .ok []
    scGet := fun _ => .ok ()
    scGetSettings := fun _ => .ok
      { name := "s", stype := "step_based", active := .bool true,
        raw_steps := [], raw_triggers := [] }
    scGetMetadata := fun _ => .ok (.dict [])
    tgtCreateScenario := fun _ => .ok "ns"
    tgtScGetSettings := fun _ => .ok ()
    tgtScSave := fun _ => .ok ()
    tgtScSetMetadata := fun _ => .ok () }

/-- C4 witness: with one failing and one succeeding matched dataset, the
call returns the `batchOk` assembly, the failure is recorded in
`failed_updates` and the later item is still updated; likewise
`duplicate_project_structure` stays `"ok"` and records the one copy
failure while still copying the other dataset. -/
theorem batch_dup_accumulate_errors_witness :
    (batch_update_objects c4Rc c4BatchOracle "P" "datasets" "ds" c4Updates =
      batchOk "P" "datasets" "ds" c4Updates
        (concatMap (fun d => (batchItemDs c4BatchOracle c4Updates
          (c4Rc "ds") "ds" d).1)
          [{ name := "bad_ds", otype := "PostgreSQL" },
           { name := "good_ds", otype := "PostgreSQL" }])
        (concatMap (fun d => (batchItemDs c4BatchOracle c4Updates
          (c4Rc "ds") "ds" d).2)
          [{ name := "bad_ds", otype := "PostgreSQL" },
           { name := "good_ds", otype := "PostgreSQL" }])) ∧
    (batch_update_objects c4Rc c4BatchOracle "P" "datasets" "ds"
      c4Updates).status = "ok" ∧
    (batch_update_objects c4Rc c4BatchOracle "P" "datasets" "ds"
      c4Updates).failed_updates =
      some [{ name := "bad_ds", otype := "dataset", sid := Option.none,
              error := "boom" }] ∧
    (batch_update_objects c4Rc c4BatchOracle "P" "datasets" "ds"
      c4Updates).updated_objects =
      some [{ name := "good_ds", otype := "dataset", sid := Option.none,
              updates_applied := ["description"] }] ∧
    ((duplicate_project_structure c4DupOracle "SRC" "TGT" false).status =
      "ok" ∧
     (duplicate_project_structure c4DupOracle "SRC" "TGT"
       false).copied_objects = some
      { datasets := concatMap
          (fun d => (dupDsOne c4DupOracle false d).1)
          [{ name := "bad", dtype := "managed" },
           { name := "ok1", dtype := "managed" }]
        recipes := concatMap (fun r => (dupRcOne c4DupOracle r).1) []
        scenarios := concatMap (fun s => (dupScOne c4DupOracle s).1) []
        varsCopied := (dupVars c4DupOracle).1
        errors := (dupVars c4DupOracle).2 ++
          concatMap (fun d => (dupDsOne c4DupOracle false d).2)
            [{ name := "bad", dtype := "managed" },
             { name := "ok1", dtype := "managed" }] ++
          concatMap (fun r => (dupRcOne c4DupOracle r).2) [] ++
          concatMap (fun s => (dupScOne c4DupOracle s).2) [] }) ∧
    (duplicate_project_structure c4DupOracle "SRC" "TGT"
      false).copied_objects = some
      { datasets := [{ name := "ok1", dtype := "managed",
                       data_copied := false }]
        recipes := []
        scenarios := []
        varsCopied := ["v1"]
        errors := ["Failed to copy dataset bad: ds boom"] } :=
  ⟨(batch_dup_accumulate_errors).1 c4Rc c4BatchOracle "P" "ds" c4Updates
     [{ name := "bad_ds", otype := "PostgreSQL" },
      { name := "good_ds", otype := "PostgreSQL" }] rfl rfl,
   rfl, rfl, rfl,
   (batch_dup_accumulate_errors).2.2.2 c4DupOracle "SRC" "TGT" false
     [{ name := "bad", dtype := "managed" },
      { name := "ok1", dtype := "managed" }] [] [] rfl rfl rfl rfl rfl rfl,
   rfl⟩

/-- Source settings with one non-dict trigger, for the C4
counterexample. -/
def c4CloneSettings : ScenarioSettings :=
  { name := "S1"
    stype := "step_based"
    active := .bool true
    raw_steps := []
    raw_triggers := [.str "x"] }

/-- An all-success clone oracle, for the C4 counterexample. -/
def c4CloneOracle : CloneOracle :=
  { getProject := .ok ()
    getScenario := .ok ()
    getSettings := .ok c4CloneSettings
    getMetadata := .ok []
    createScenario := .ok ()
    newScenarioId := "S2"
    newGetSettings := .ok c4CloneSettings
    newGetMetadata := .ok []
    newSetMetadata := fun _ => .ok ()
    saveSettings := fun _ => .ok () }

/-- Trigger modifications whose processing raises mid-clone. -/
def c4CloneMods : Modifications :=
  { description := Option.none
    tags := Option.none
    active := Option.none
    step_modifications := Option.none
    trigger_modifications := some [(0, [("a", .int 1)])]
    new_triggers := Option.none
    remove_triggers := Option.none }

/-- C4 counterexample: an exception while processing one cloned item makes
`clone_scenario` return a single `status == "error"` envelope — there is
no per-item error list and no `"ok"` result for the clone. -/
theorem clone_no_partial_accumulation_cex :
    (clone_scenario c4CloneOracle "P" "S1" "C"
      (some c4CloneMods)).status = "error" ∧
    (clone_scenario c4CloneOracle "P" "S1" "C"
      (some c4CloneMods)).message =
      some "Failed to clone scenario: AttributeError" ∧
    (clone_scenario c4CloneOracle "P" "S1" "C"
      (some c4CloneMods)).scenario_info = Option.none :=
  ⟨rfl, rfl, rfl⟩
